import Mathlib

/-! # Copilot-Pong: a shallow embedding of `src/game.js`

The game keeps its whole state in module-level variables and mutates them from
the frame callback `update()` and from four DOM event handlers.  Here every
such function is a pure function from the state record `Game` to `Game`.

Modelling conventions.

* JavaScript numbers are read as elements of a linearly ordered field `α`
  (exact arithmetic: no rounding, no infinities).  The definitions are
  generic in `α`, so they evaluate on `ℚ`; theorems that need facts about the
  trigonometric functions are stated over `ℝ`.
* The functions of the host object `Math` that have no field counterpart
  (`Math.cos`, `Math.sin`, `Math.atan2`, `Math.PI`) are passed as a record
  `JSMath α`; `realMath` is their meaning over `ℝ`.
  `Math.max`, `Math.min`, `Math.abs` are `max`, `min`, `|·|`.
* `Math.random()` is nondeterministic: each call of `getRandomBallAngle`
  consumes three draws, passed explicitly as a `Draws` record.
* `canvas.width` and `canvas.height` are `unsigned long` attributes of the
  host canvas element, hence natural numbers (`Canvas`).
* The persisted settings are the one place where `NaN` matters: a stored string
  need not be numeric. There a number is a `JSNum`, a field element or `NaN`;
  `localStorage.getItem` is a function from keys to optional strings and the
  conversion `Number(value)` is a parameter, like the functions of `Math`.
* DOM output (`textContent`, drawing, `localStorage.setItem`) is not modelled.
-/

set_option linter.unusedSectionVars false

namespace Pong

/-- The functions of the host object `Math` used by the game that are not field
operations. -/
structure JSMath (α : Type) where
  /-- `Math.cos` -/
  cos : α → α
  /-- `Math.sin` -/
  sin : α → α
  /-- `Math.atan2(y, x)` -/
  atan2 : α → α → α
  /-- `Math.PI` -/
  PI : α

/-- The host functions over the reals; `Math.atan2(y, x)` is the argument of the
complex number `x + y i`, in `(-π, π]`. -/
noncomputable def realMath : JSMath ℝ where
  cos := Real.cos
  sin := Real.sin
  atan2 := fun y x => Complex.arg ⟨x, y⟩
  PI := Real.pi

/-- The canvas element `pong`: its `width` and `height` attributes. -/
structure Canvas where
  width : ℕ
  height : ℕ

/-- One paddle object (`leftPaddle`, `rightPaddle`, lines 38-49). -/
structure Paddle (α : Type) where
  x : α
  y : α
  width : α
  height : α

/-- The ball object (lines 50-55). -/
structure Ball (α : Type) where
  x : α
  y : α
  vx : α
  vy : α

/-- The three values of `Math.random()` consumed by one call of
`getRandomBallAngle`, in call order. -/
structure Draws (α : Type) where
  r1 : α
  r2 : α
  r3 : α

/-- The module-level mutable variables of `game.js`. -/
structure Game (α : Type) where
  leftScore : ℤ
  rightScore : ℤ
  paused : Bool
  BALL_SPEED : α
  AI_SPEED : α
  leftPaddle : Paddle α
  rightPaddle : Paddle α
  ball : Ball α

section Defs

variable {α : Type} [LinearOrderedField α]

/-- Line 5: `const WIDTH = canvas.width`. -/
def WIDTH (c : Canvas) : α := (c.width : α)

/-- Line 6: `const HEIGHT = canvas.height`. -/
def HEIGHT (c : Canvas) : α := (c.height : α)

/-- Line 7. -/
def PADDLE_WIDTH : α := 12

/-- Line 8. -/
def PADDLE_HEIGHT : α := 100

/-- Line 9. -/
def BALL_SIZE : α := 16

/-- Line 12. -/
def PADDLE_VERTICAL_MARGIN : α := 10

/-- Lines 58-61: `setBallVelocityFromAngle(angle, speed)`, acting on the ball. -/
def setBallVelocityFromAngle (M : JSMath α) (angle speed : α) (b : Ball α) : Ball α :=
  { b with vx := speed * M.cos angle, vy := speed * M.sin angle }

/-- Lines 62-69: `getRandomBallAngle()` on the three draws it consumes. -/
def getRandomBallAngle (M : JSMath α) (d : Draws α) : α :=
  let minAngle := M.PI / 9
  let maxAngle := M.PI / 3.5
  let angle := minAngle + d.r1 * (maxAngle - minAngle)
  let angle := if d.r2 < 0.5 then -angle else angle
  let angle := if d.r3 < 0.5 then M.PI - angle else angle
  angle

/-- Lines 207-212: `resetBall()`. -/
def resetBall (M : JSMath α) (c : Canvas) (d : Draws α) (g : Game α) : Game α :=
  let b : Ball α :=
    { g.ball with x := WIDTH c / 2 - BALL_SIZE / 2, y := HEIGHT c / 2 - BALL_SIZE / 2 }
  let angle := getRandomBallAngle M d
  { g with ball := setBallVelocityFromAngle M angle g.BALL_SPEED b }

/-- Lines 31-55 and 70: the state after the top-level script has run, given the
two values returned by `getSetting` and the draws of the first serve. -/
def initialGame (M : JSMath α) (c : Canvas) (ballSpeed botDifficulty : α) (d : Draws α) :
    Game α :=
  let BALL_SPEED := max 1 (min 10 ballSpeed)
  let AI_SPEED := max 1 (min 10 botDifficulty)
  let leftPaddle : Paddle α :=
    { x := 10, y := HEIGHT c / 2 - PADDLE_HEIGHT / 2,
      width := PADDLE_WIDTH, height := PADDLE_HEIGHT }
  let rightPaddle : Paddle α :=
    { x := WIDTH c - PADDLE_WIDTH - 10, y := HEIGHT c / 2 - PADDLE_HEIGHT / 2,
      width := PADDLE_WIDTH, height := PADDLE_HEIGHT }
  let ball : Ball α :=
    { x := WIDTH c / 2 - BALL_SIZE / 2, y := HEIGHT c / 2 - BALL_SIZE / 2, vx := 0, vy := 0 }
  { leftScore := 0, rightScore := 0, paused := false,
    BALL_SPEED := BALL_SPEED, AI_SPEED := AI_SPEED,
    leftPaddle := leftPaddle, rightPaddle := rightPaddle,
    ball := setBallVelocityFromAngle M (getRandomBallAngle M d) BALL_SPEED ball }

/-- Lines 83-89: the `input` handler of the ball-speed slider; `v` is
`parseInt(ballSpeedSlider.value)`. -/
def ballSpeedInput (M : JSMath α) (v : ℤ) (g : Game α) : Game α :=
  let angle := M.atan2 g.ball.vy g.ball.vx
  { g with BALL_SPEED := (v : α), ball := setBallVelocityFromAngle M angle (v : α) g.ball }

/-- Lines 90-94: the `input` handler of the bot-difficulty slider; `v` is
`parseInt(botDifficultySlider.value)`. -/
def botDifficultyInput (v : ℤ) (g : Game α) : Game α :=
  { g with AI_SPEED := (v : α) }

/-- Lines 97-102: the `mousemove` handler; `clientY` is `e.clientY` and `rectTop`
is `canvas.getBoundingClientRect().top`. -/
def mousemove (c : Canvas) (clientY rectTop : α) (g : Game α) : Game α :=
  let mouseY := clientY - rectTop
  let y := mouseY - g.leftPaddle.height / 2
  let y := max PADDLE_VERTICAL_MARGIN (min (HEIGHT c - PADDLE_HEIGHT - PADDLE_VERTICAL_MARGIN) y)
  { g with leftPaddle := { g.leftPaddle with y := y } }

/-- Lines 109-115: the `keydown` handler; `isSpace` is `e.code === 'Space'`. -/
def keydown (isSpace : Bool) (g : Game α) : Game α :=
  if isSpace then { g with paused := !g.paused } else g

/-- Lines 146-147: `ball.x += ball.vx; ball.y += ball.vy`. -/
def integrate (g : Game α) : Game α :=
  { g with ball := { g.ball with x := g.ball.x + g.ball.vx, y := g.ball.y + g.ball.vy } }

/-- Lines 149-157: the two wall tests, one after the other. -/
def wallStep (c : Canvas) (g : Game α) : Game α :=
  let b := g.ball
  let b := if b.y ≤ 0 then { b with y := 0, vy := b.vy * (-1) } else b
  let b := if b.y + BALL_SIZE ≥ HEIGHT c then
      { b with y := HEIGHT c - BALL_SIZE, vy := b.vy * (-1) } else b
  { g with ball := b }

/-- Lines 160-164: the condition of the left-paddle branch. -/
def leftCollides (g : Game α) : Bool :=
  decide (g.ball.x ≤ g.leftPaddle.x + g.leftPaddle.width) &&
  decide (g.ball.y + BALL_SIZE ≥ g.leftPaddle.y) &&
  decide (g.ball.y ≤ g.leftPaddle.y + g.leftPaddle.height)

/-- Lines 172-176: the condition of the right-paddle branch. -/
def rightCollides (g : Game α) : Bool :=
  decide (g.ball.x + BALL_SIZE ≥ g.rightPaddle.x) &&
  decide (g.ball.y + BALL_SIZE ≥ g.rightPaddle.y) &&
  decide (g.ball.y ≤ g.rightPaddle.y + g.rightPaddle.height)

/-- Lines 166-167 and 178-179: `normalizedIntersectY` for paddle `p` and the ball's
`y`. -/
def normalizedIntersectY (p : Paddle α) (ballY : α) : α :=
  let relativeIntersectY := (p.y + p.height / 2) - (ballY + BALL_SIZE / 2)
  relativeIntersectY / (p.height / 2)

/-- Lines 165-170: the body of the left-paddle branch. -/
def leftBounce (M : JSMath α) (g : Game α) : Game α :=
  let b : Ball α := { g.ball with x := g.leftPaddle.x + g.leftPaddle.width }
  let bounceAngle := normalizedIntersectY g.leftPaddle b.y * (M.PI / 3)
  let b := setBallVelocityFromAngle M bounceAngle g.BALL_SPEED b
  let b := if b.vx < 0 then { b with vx := |b.vx| } else b
  { g with ball := b }

/-- Lines 177-182: the body of the right-paddle branch. -/
def rightBounce (M : JSMath α) (g : Game α) : Game α :=
  let b : Ball α := { g.ball with x := g.rightPaddle.x - BALL_SIZE }
  let bounceAngle := M.PI - normalizedIntersectY g.rightPaddle b.y * (M.PI / 3)
  let b := setBallVelocityFromAngle M bounceAngle g.BALL_SPEED b
  let b := if b.vx > 0 then { b with vx := -|b.vx| } else b
  { g with ball := b }

/-- Lines 160-171. -/
def leftPaddleStep (M : JSMath α) (g : Game α) : Game α :=
  if leftCollides g then leftBounce M g else g

/-- Lines 172-183. -/
def rightPaddleStep (M : JSMath α) (g : Game α) : Game α :=
  if rightCollides g then rightBounce M g else g

/-- Lines 185-194: out of bounds and score update. -/
def scoreStep (M : JSMath α) (c : Canvas) (d : Draws α) (g : Game α) : Game α :=
  if g.ball.x < 0 then
    resetBall M c d { g with rightScore := g.rightScore + 1 }
  else if g.ball.x > WIDTH c then
    resetBall M c d { g with leftScore := g.leftScore + 1 }
  else g

/-- Line 197: `aiTarget`. -/
def aiTarget (g : Game α) : α :=
  g.ball.y + BALL_SIZE / 2 - g.rightPaddle.height / 2

/-- Lines 196-203: AI paddle movement. -/
def aiStep (c : Canvas) (g : Game α) : Game α :=
  let p := g.rightPaddle
  let y := if aiTarget g > p.y then p.y + g.AI_SPEED
    else if aiTarget g < p.y then p.y - g.AI_SPEED
    else p.y
  let y := max PADDLE_VERTICAL_MARGIN (min (HEIGHT c - p.height - PADDLE_VERTICAL_MARGIN) y)
  { g with rightPaddle := { p with y := y } }

/-- The state reached by `update()` just before the paddle tests (line 158). -/
def afterWalls (c : Canvas) (g : Game α) : Game α :=
  wallStep c (integrate g)

/-- The state reached by `update()` just before the out-of-bounds test (line 184). -/
def afterPaddles (M : JSMath α) (c : Canvas) (g : Game α) : Game α :=
  rightPaddleStep M (leftPaddleStep M (afterWalls c g))

/-- The state reached by `update()` just before the AI paddle movement (line 195). -/
def afterScore (M : JSMath α) (c : Canvas) (d : Draws α) (g : Game α) : Game α :=
  scoreStep M c d (afterPaddles M c g)

/-- Lines 144-204: `update()`; `d` holds the draws a reset would consume. -/
def update (M : JSMath α) (c : Canvas) (d : Draws α) (g : Game α) : Game α :=
  if g.paused then g else aiStep c (afterScore M c d g)

/-- What can happen to the game: a frame (`gameLoop` calls `update`) or one of the
four registered DOM events. -/
inductive Event (α : Type) where
  | frame (d : Draws α)
  | mouse (clientY rectTop : α)
  | key (isSpace : Bool)
  | ballSpeed (v : ℤ)
  | botDifficulty (v : ℤ)

/-- The effect of one event on the state. -/
def step (M : JSMath α) (c : Canvas) (g : Game α) : Event α → Game α
  | .frame d => update M c d g
  | .mouse clientY rectTop => mousemove c clientY rectTop g
  | .key isSpace => keydown isSpace g
  | .ballSpeed v => ballSpeedInput M v g
  | .botDifficulty v => botDifficultyInput v g

/-- The state after a sequence of events, oldest first. -/
def run (M : JSMath α) (c : Canvas) (g : Game α) (es : List (Event α)) : Game α :=
  es.foldl (step M c) g

/-- Consecutive calls of `update()`, one per element of `ds`, with no event in
between. -/
def updates (M : JSMath α) (c : Canvas) (ds : List (Draws α)) (g : Game α) : Game α :=
  ds.foldl (fun s d => update M c d s) g

/-- The closed interval a paddle's `y` is clamped into. -/
def PaddleInBounds (c : Canvas) (y : α) : Prop :=
  PADDLE_VERTICAL_MARGIN ≤ y ∧ y ≤ HEIGHT c - PADDLE_HEIGHT - PADDLE_VERTICAL_MARGIN

/-- Every variable other than `ball` has the same value in `g'` as in `g`. -/
def SameButBall (g g' : Game α) : Prop :=
  g'.leftScore = g.leftScore ∧ g'.rightScore = g.rightScore ∧ g'.paused = g.paused ∧
  g'.BALL_SPEED = g.BALL_SPEED ∧ g'.AI_SPEED = g.AI_SPEED ∧
  g'.leftPaddle = g.leftPaddle ∧ g'.rightPaddle = g.rightPaddle

/-- The squared magnitude `vx² + vy²` of the ball's velocity. -/
def speedSq (b : Ball α) : α := b.vx ^ 2 + b.vy ^ 2

/-- A running game on canvas `c` with the paddle geometry of lines 38-49, the
default speeds 5 and 4, no points scored, the paddles at heights `leftY` and
`rightY` and the ball `b`. Used to instantiate the theorems below. -/
def sampleGame (c : Canvas) (leftY rightY : α) (b : Ball α) : Game α :=
  { leftScore := 0, rightScore := 0, paused := false, BALL_SPEED := 5, AI_SPEED := 4,
    leftPaddle := { x := 10, y := leftY, width := PADDLE_WIDTH, height := PADDLE_HEIGHT },
    rightPaddle :=
      { x := WIDTH c - PADDLE_WIDTH - 10, y := rightY,
        width := PADDLE_WIDTH, height := PADDLE_HEIGHT },
    ball := b }

/-- An 800 by 400 canvas. -/
def sampleCanvas : Canvas := { width := 800, height := 400 }

/-! ### Persisted settings (lines 22-35)

A stored value is a string, and `Number(value)` may be `NaN`; the numbers of this part
are therefore `JSNum`, a field element or `NaN`. -/

/-- A JavaScript number that may be `NaN`. -/
inductive JSNum (α : Type) where
  | num (x : α)
  | nan

/-- `Math.min(a, b)`: `NaN` as soon as an argument is `NaN`. -/
def jsMin : JSNum α → JSNum α → JSNum α
  | .num a, .num b => .num (min a b)
  | _, _ => .nan

/-- `Math.max(a, b)`: `NaN` as soon as an argument is `NaN`. -/
def jsMax : JSNum α → JSNum α → JSNum α
  | .num a, .num b => .num (max a b)
  | _, _ => .nan

/-- Lines 23-26: `getSetting(key, fallback)`. `localStorage` gives the stored string of a
key, or `none` for `null`; `toNumber` is the host conversion `Number(value)`. -/
def getSetting (localStorage : String → Option String) (toNumber : String → JSNum α)
    (key : String) (fallback : JSNum α) : JSNum α :=
  match localStorage key with
  | some value => toNumber value
  | none => fallback

/-- The key of the ball speed in `localStorage`. -/
def ballSpeedKey : String := "ballSpeed"

/-- The key of the AI speed in `localStorage`. -/
def botDifficultyKey : String := "botDifficulty"

/-- Lines 32 and 34: the value of `BALL_SPEED` after the top-level script has run. -/
def startupBallSpeed (localStorage : String → Option String) (toNumber : String → JSNum α) :
    JSNum α :=
  let BALL_SPEED := getSetting localStorage toNumber ballSpeedKey (.num 5)
  jsMax (.num 1) (jsMin (.num 10) BALL_SPEED)

/-- Lines 33 and 35: the value of `AI_SPEED` after the top-level script has run. -/
def startupAiSpeed (localStorage : String → Option String) (toNumber : String → JSNum α) :
    JSNum α :=
  let AI_SPEED := getSetting localStorage toNumber botDifficultyKey (.num 4)
  jsMax (.num 1) (jsMin (.num 10) AI_SPEED)

/-- The value of a string of decimal digits read left to right, `none` if a character
is not a digit. -/
def digitsValue : List Char → ℕ → Option ℕ
  | [], acc => some acc
  | ch :: cs, acc =>
    if ch.isDigit then digitsValue cs (10 * acc + (ch.toNat - 48)) else none

/-- The host conversion `Number(value)` on strings of decimal digits; every string with
another character is read as not numeric. JavaScript accepts more numeric literals (signs,
fractions, exponents, surrounding blanks); the two agree on the strings used below. -/
def decimalNumber (value : String) : JSNum α :=
  match digitsValue value.toList 0 with
  | some n => .num (n : α)
  | none => .nan

/-- An empty `localStorage`. -/
def emptyStorage : String → Option String := fun _ => none

/-- A `localStorage` that holds `value` under every key. -/
def storageWith (value : String) : String → Option String := fun _ => some value

/-- A stored string that is not numeric. -/
def notNumeric : String := "fast"

/-- A stored string that is numeric and above the range of the sliders. -/
def storedTwelve : String := "12"

/-! ### `update()` without the direction guards

The variant of `update()` in which the two guards `if (ball.vx < 0) ...` (line 170) and
`if (ball.vx > 0) ...` (line 182) are deleted and everything else is kept. -/

/-- Lines 165-169: the left-paddle branch without the guard of line 170. -/
def leftBounceNoGuard (M : JSMath α) (g : Game α) : Game α :=
  let b : Ball α := { g.ball with x := g.leftPaddle.x + g.leftPaddle.width }
  let bounceAngle := normalizedIntersectY g.leftPaddle b.y * (M.PI / 3)
  let b := setBallVelocityFromAngle M bounceAngle g.BALL_SPEED b
  { g with ball := b }

/-- Lines 177-181: the right-paddle branch without the guard of line 182. -/
def rightBounceNoGuard (M : JSMath α) (g : Game α) : Game α :=
  let b : Ball α := { g.ball with x := g.rightPaddle.x - BALL_SIZE }
  let bounceAngle := M.PI - normalizedIntersectY g.rightPaddle b.y * (M.PI / 3)
  let b := setBallVelocityFromAngle M bounceAngle g.BALL_SPEED b
  { g with ball := b }

/-- Lines 160-171 without the guard. -/
def leftPaddleStepNoGuard (M : JSMath α) (g : Game α) : Game α :=
  if leftCollides g then leftBounceNoGuard M g else g

/-- Lines 172-183 without the guard. -/
def rightPaddleStepNoGuard (M : JSMath α) (g : Game α) : Game α :=
  if rightCollides g then rightBounceNoGuard M g else g

/-- The function `update()` with both direction guards removed. -/
def updateNoGuards (M : JSMath α) (c : Canvas) (d : Draws α) (g : Game α) : Game α :=
  if g.paused then g
  else aiStep c (scoreStep M c d
    (rightPaddleStepNoGuard M (leftPaddleStepNoGuard M (afterWalls c g))))

end Defs

/-! ## Frame lemmas: which variables each part of `update()` leaves alone -/

section Frame

variable {α : Type} [LinearOrderedField α]

theorem SameButBall.refl (g : Game α) : SameButBall g g :=
  ⟨rfl, rfl, rfl, rfl, rfl, rfl, rfl⟩

theorem SameButBall.trans {a b e : Game α} (h : SameButBall a b) (k : SameButBall b e) :
    SameButBall a e :=
  ⟨k.1.trans h.1, k.2.1.trans h.2.1, k.2.2.1.trans h.2.2.1, k.2.2.2.1.trans h.2.2.2.1,
    k.2.2.2.2.1.trans h.2.2.2.2.1, k.2.2.2.2.2.1.trans h.2.2.2.2.2.1,
    k.2.2.2.2.2.2.trans h.2.2.2.2.2.2⟩

theorem integrate_same (g : Game α) : SameButBall g (integrate g) :=
  SameButBall.refl g

theorem wallStep_same (c : Canvas) (g : Game α) : SameButBall g (wallStep c g) :=
  SameButBall.refl g

theorem leftPaddleStep_same (M : JSMath α) (g : Game α) : SameButBall g (leftPaddleStep M g) := by
  unfold leftPaddleStep
  split_ifs
  · exact ⟨rfl, rfl, rfl, rfl, rfl, rfl, rfl⟩
  · exact SameButBall.refl g

theorem rightPaddleStep_same (M : JSMath α) (g : Game α) :
    SameButBall g (rightPaddleStep M g) := by
  unfold rightPaddleStep
  split_ifs
  · exact ⟨rfl, rfl, rfl, rfl, rfl, rfl, rfl⟩
  · exact SameButBall.refl g

theorem afterWalls_same (c : Canvas) (g : Game α) : SameButBall g (afterWalls c g) :=
  (integrate_same g).trans (wallStep_same c _)

theorem afterPaddles_same (M : JSMath α) (c : Canvas) (g : Game α) :
    SameButBall g (afterPaddles M c g) :=
  ((afterWalls_same c g).trans (leftPaddleStep_same M _)).trans (rightPaddleStep_same M _)

/-- The out-of-bounds step changes only the ball and the scores. -/
theorem scoreStep_keeps (M : JSMath α) (c : Canvas) (d : Draws α) (g : Game α) :
    (scoreStep M c d g).paused = g.paused ∧ (scoreStep M c d g).BALL_SPEED = g.BALL_SPEED ∧
    (scoreStep M c d g).AI_SPEED = g.AI_SPEED ∧ (scoreStep M c d g).leftPaddle = g.leftPaddle ∧
    (scoreStep M c d g).rightPaddle = g.rightPaddle := by
  unfold scoreStep
  split_ifs
  · exact ⟨rfl, rfl, rfl, rfl, rfl⟩
  · exact ⟨rfl, rfl, rfl, rfl, rfl⟩
  · exact ⟨rfl, rfl, rfl, rfl, rfl⟩

theorem afterScore_keeps (M : JSMath α) (c : Canvas) (d : Draws α) (g : Game α) :
    (afterScore M c d g).paused = g.paused ∧ (afterScore M c d g).BALL_SPEED = g.BALL_SPEED ∧
    (afterScore M c d g).AI_SPEED = g.AI_SPEED ∧ (afterScore M c d g).leftPaddle = g.leftPaddle ∧
    (afterScore M c d g).rightPaddle = g.rightPaddle := by
  have h := scoreStep_keeps M c d (afterPaddles M c g)
  have k := afterPaddles_same M c g
  exact ⟨h.1.trans k.2.2.1, h.2.1.trans k.2.2.2.1, h.2.2.1.trans k.2.2.2.2.1,
    h.2.2.2.1.trans k.2.2.2.2.2.1, h.2.2.2.2.trans k.2.2.2.2.2.2⟩

/-- The AI step changes nothing but the right paddle. -/
theorem aiStep_ball (c : Canvas) (g : Game α) :
    (aiStep c g).ball = g.ball ∧ (aiStep c g).leftScore = g.leftScore ∧
    (aiStep c g).rightScore = g.rightScore ∧ (aiStep c g).leftPaddle = g.leftPaddle ∧
    (aiStep c g).BALL_SPEED = g.BALL_SPEED ∧ (aiStep c g).AI_SPEED = g.AI_SPEED ∧
    (aiStep c g).paused = g.paused :=
  ⟨rfl, rfl, rfl, rfl, rfl, rfl, rfl⟩

theorem update_unpaused (M : JSMath α) (c : Canvas) (d : Draws α) (g : Game α)
    (h : g.paused = false) : update M c d g = aiStep c (afterScore M c d g) := by
  simp [update, h]

theorem update_paused (M : JSMath α) (c : Canvas) (d : Draws α) (g : Game α)
    (h : g.paused = true) : update M c d g = g := by
  simp [update, h]

/-- A value clamped by `Math.max(lo, Math.min(hi, y))` lies in `[lo, hi]` when
`lo ≤ hi`. -/
theorem clamp_mem (lo hi y : α) (h : lo ≤ hi) :
    lo ≤ max lo (min hi y) ∧ max lo (min hi y) ≤ hi :=
  ⟨le_max_left _ _, max_le h (min_le_left _ _)⟩

/-- Clamping a value that is already in `[lo, hi]` returns it. -/
theorem clamp_id (lo hi y : α) (h1 : lo ≤ y) (h2 : y ≤ hi) : max lo (min hi y) = y := by
  rw [min_eq_right h2, max_eq_right h1]

end Frame

/-! ## Claims -/

section Claims

variable {α : Type} [LinearOrderedField α]

/-- C1. Paddle bounds invariant: on a playfield with
`HEIGHT ≥ PADDLE_HEIGHT + 2 * PADDLE_VERTICAL_MARGIN`, the `mousemove` handler leaves
`leftPaddle.y`, and an unpaused `update()` leaves `rightPaddle.y`, inside
`[PADDLE_VERTICAL_MARGIN, HEIGHT - PADDLE_HEIGHT - PADDLE_VERTICAL_MARGIN]`, for every
mouse position, ball state, AI speed and prior paddle position; the initial paddle
positions `HEIGHT/2 - PADDLE_HEIGHT/2` lie in it too. -/
theorem C1_paddle_bounds (M : JSMath α) (c : Canvas)
    (hH : (PADDLE_HEIGHT + 2 * PADDLE_VERTICAL_MARGIN : α) ≤ HEIGHT c) :
    (∀ (clientY rectTop : α) (g : Game α),
      PaddleInBounds c (mousemove c clientY rectTop g).leftPaddle.y) ∧
    (∀ (d : Draws α) (g : Game α), g.paused = false → g.rightPaddle.height = PADDLE_HEIGHT →
      PaddleInBounds c (update M c d g).rightPaddle.y) ∧
    (∀ (ballSpeed botDifficulty : α) (d : Draws α),
      PaddleInBounds c (initialGame M c ballSpeed botDifficulty d).leftPaddle.y ∧
      PaddleInBounds c (initialGame M c ballSpeed botDifficulty d).rightPaddle.y) := by
  have hlo : (PADDLE_VERTICAL_MARGIN : α) ≤
      HEIGHT c - PADDLE_HEIGHT - PADDLE_VERTICAL_MARGIN := by
    linarith
  refine ⟨?_, ?_, ?_⟩
  · intro clientY rectTop g
    exact clamp_mem _ _ _ hlo
  · intro d g hp hh
    have hf := (afterScore_keeps M c d g).2.2.2.2
    rw [update_unpaused M c d g hp]
    simp only [aiStep, hf, hh]
    exact clamp_mem _ _ _ hlo
  · intro bs ai d
    simp only [initialGame, PaddleInBounds, PADDLE_HEIGHT, PADDLE_VERTICAL_MARGIN] at *
    constructor <;> constructor <;> linarith

/-- C1 at an 800 by 400 canvas: the mouse far below the playfield, and one frame of a
running game. -/
theorem C1_paddle_bounds_witness :
    (PADDLE_HEIGHT + 2 * PADDLE_VERTICAL_MARGIN : ℝ) ≤ HEIGHT sampleCanvas ∧
    PaddleInBounds sampleCanvas
      (mousemove sampleCanvas (1000 : ℝ) 0
        (sampleGame sampleCanvas 150 50 ⟨0, 20, -3, 4⟩)).leftPaddle.y ∧
    PaddleInBounds sampleCanvas
      (update realMath sampleCanvas ⟨0, 0, 0⟩
        (sampleGame sampleCanvas 150 50 ⟨0, 20, -3, 4⟩)).rightPaddle.y :=
  have h : (PADDLE_HEIGHT + 2 * PADDLE_VERTICAL_MARGIN : ℝ) ≤ HEIGHT sampleCanvas := by
    norm_num [PADDLE_HEIGHT, PADDLE_VERTICAL_MARGIN, HEIGHT, sampleCanvas]
  ⟨h, (C1_paddle_bounds realMath sampleCanvas h).1 1000 0 _,
    (C1_paddle_bounds realMath sampleCanvas h).2.1 ⟨0, 0, 0⟩ _ rfl rfl⟩

/-- Over the reals `setBallVelocityFromAngle` produces a velocity of squared magnitude
`speed²`. -/
theorem setBallVelocityFromAngle_speedSq (angle speed : ℝ) (b : Ball ℝ) :
    speedSq (setBallVelocityFromAngle realMath angle speed b) = speed ^ 2 := by
  simp only [speedSq, setBallVelocityFromAngle, realMath]
  have h := Real.cos_sq_add_sin_sq angle
  linear_combination speed ^ 2 * h

theorem leftBounce_speedSq (g : Game ℝ) :
    speedSq (leftBounce realMath g).ball = g.BALL_SPEED ^ 2 := by
  have h := setBallVelocityFromAngle_speedSq
    (normalizedIntersectY g.leftPaddle g.ball.y * (realMath.PI / 3))
    g.BALL_SPEED { g.ball with x := g.leftPaddle.x + g.leftPaddle.width }
  unfold leftBounce
  simp only
  split_ifs
  · simpa [speedSq, sq_abs] using h
  · exact h

theorem rightBounce_speedSq (g : Game ℝ) :
    speedSq (rightBounce realMath g).ball = g.BALL_SPEED ^ 2 := by
  have h := setBallVelocityFromAngle_speedSq
    (realMath.PI - normalizedIntersectY g.rightPaddle g.ball.y * (realMath.PI / 3))
    g.BALL_SPEED { g.ball with x := g.rightPaddle.x - BALL_SIZE }
  unfold rightBounce
  simp only
  split_ifs
  · simpa [speedSq, sq_abs] using h
  · exact h

theorem resetBall_speedSq (c : Canvas) (d : Draws ℝ) (g : Game ℝ) :
    speedSq (resetBall realMath c d g).ball = g.BALL_SPEED ^ 2 :=
  setBallVelocityFromAngle_speedSq _ _ _

theorem afterWalls_speedSq (c : Canvas) (g : Game α) :
    speedSq (afterWalls c g).ball = speedSq g.ball := by
  simp only [afterWalls, wallStep, integrate]
  split_ifs <;> simp [speedSq]

theorem leftPaddleStep_speedSq (g : Game ℝ) :
    speedSq (leftPaddleStep realMath g).ball =
      if leftCollides g then g.BALL_SPEED ^ 2 else speedSq g.ball := by
  unfold leftPaddleStep
  split_ifs
  · exact leftBounce_speedSq g
  · rfl

theorem rightPaddleStep_speedSq (g : Game ℝ) :
    speedSq (rightPaddleStep realMath g).ball =
      if rightCollides g then g.BALL_SPEED ^ 2 else speedSq g.ball := by
  unfold rightPaddleStep
  split_ifs
  · exact rightBounce_speedSq g
  · rfl

theorem scoreStep_speedSq (c : Canvas) (d : Draws ℝ) (g : Game ℝ) :
    speedSq (scoreStep realMath c d g).ball =
      if g.ball.x < 0 ∨ WIDTH c < g.ball.x then g.BALL_SPEED ^ 2 else speedSq g.ball := by
  unfold scoreStep
  by_cases h1 : g.ball.x < 0
  · simp only [h1, if_true, true_or]
    exact resetBall_speedSq c d _
  · by_cases h2 : WIDTH c < g.ball.x
    · simp only [h1, if_false, gt_iff_lt, h2, if_true, or_true]
      exact resetBall_speedSq c d _
    · simp only [h1, if_false, gt_iff_lt, h2, or_self]

/-- C2. Ball speed invariant (arithmetic over the reals): an unpaused `update()` keeps
`BALL_SPEED`; if `vx² + vy² = BALL_SPEED²` before it, then also after it, whichever of the
wall, left-paddle, right-paddle and score/reset branches fire; and when a paddle branch or
the reset fires, `vx² + vy² = BALL_SPEED²` afterwards whatever the magnitude was before.
No bound on `BALL_SPEED` is needed. -/
theorem C2_ball_speed (c : Canvas) (d : Draws ℝ) (g : Game ℝ) (hp : g.paused = false) :
    (update realMath c d g).BALL_SPEED = g.BALL_SPEED ∧
    (speedSq g.ball = g.BALL_SPEED ^ 2 →
      speedSq (update realMath c d g).ball = g.BALL_SPEED ^ 2) ∧
    (leftCollides (afterWalls c g) = true ∨
      rightCollides (leftPaddleStep realMath (afterWalls c g)) = true ∨
      (afterPaddles realMath c g).ball.x < 0 ∨
      WIDTH c < (afterPaddles realMath c g).ball.x →
      speedSq (update realMath c d g).ball = g.BALL_SPEED ^ 2) := by
  have hw := afterWalls_same c g
  have hl := hw.trans (leftPaddleStep_same realMath (afterWalls c g))
  have hr := afterPaddles_same realMath c g
  have e1 : speedSq (afterWalls c g).ball = speedSq g.ball := afterWalls_speedSq c g
  have e2 := leftPaddleStep_speedSq (afterWalls c g)
  have e3 := rightPaddleStep_speedSq (leftPaddleStep realMath (afterWalls c g))
  have e4 := scoreStep_speedSq c d (afterPaddles realMath c g)
  rw [hw.2.2.2.1, e1] at e2
  rw [hl.2.2.2.1, e2] at e3
  rw [hr.2.2.2.1] at e4
  rw [update_unpaused realMath c d g hp]
  change _ ∧ (_ → speedSq (scoreStep realMath c d (afterPaddles realMath c g)).ball = _) ∧
    (_ → speedSq (scoreStep realMath c d (afterPaddles realMath c g)).ball = _)
  rw [e4]
  change _ ∧ (_ → (if _ then _ else
      speedSq (rightPaddleStep realMath (leftPaddleStep realMath (afterWalls c g))).ball) = _) ∧
    (_ → (if _ then _ else
      speedSq (rightPaddleStep realMath (leftPaddleStep realMath (afterWalls c g))).ball) = _)
  rw [e3]
  refine ⟨(afterScore_keeps realMath c d g).2.1, ?_, ?_⟩
  · intro h0
    split_ifs <;> first | rfl | exact h0
  · intro h
    split_ifs with a b e
    · rfl
    · rfl
    · rfl
    · rcases h with h | h | h | h
      · exact absurd h e
      · exact absurd h b
      · exact absurd (Or.inl h) a
      · exact absurd (Or.inr h) a

/-- C2 at a ball of velocity `(-3, 4)` and `BALL_SPEED = 5`. -/
theorem C2_ball_speed_witness :
    speedSq (update realMath sampleCanvas ⟨0, 0, 0⟩
      (sampleGame sampleCanvas 150 50 ⟨0, 20, -3, 4⟩)).ball = (5 : ℝ) ^ 2 :=
  (C2_ball_speed sampleCanvas ⟨0, 0, 0⟩ (sampleGame sampleCanvas 150 50 ⟨0, 20, -3, 4⟩) rfl).2.1
    (by norm_num [speedSq, sampleGame])

/-! ### Where the ball is after each part of `update()` -/

theorem afterWalls_ball_x (c : Canvas) (g : Game α) :
    (afterWalls c g).ball.x = g.ball.x + g.ball.vx := by
  simp only [afterWalls, wallStep, integrate]
  split_ifs <;> rfl

theorem leftBounce_ball_pos (M : JSMath α) (g : Game α) :
    (leftBounce M g).ball.x = g.leftPaddle.x + g.leftPaddle.width ∧
    (leftBounce M g).ball.y = g.ball.y := by
  unfold leftBounce
  simp only
  split_ifs <;> exact ⟨rfl, rfl⟩

theorem rightBounce_ball_pos (M : JSMath α) (g : Game α) :
    (rightBounce M g).ball.x = g.rightPaddle.x - BALL_SIZE ∧
    (rightBounce M g).ball.y = g.ball.y := by
  unfold rightBounce
  simp only
  split_ifs <;> exact ⟨rfl, rfl⟩

theorem leftPaddleStep_ball_x (M : JSMath α) (g : Game α) :
    (leftPaddleStep M g).ball.x =
      if leftCollides g then g.leftPaddle.x + g.leftPaddle.width else g.ball.x := by
  unfold leftPaddleStep
  split_ifs
  · exact (leftBounce_ball_pos M g).1
  · rfl

theorem leftPaddleStep_ball_y (M : JSMath α) (g : Game α) :
    (leftPaddleStep M g).ball.y = g.ball.y := by
  unfold leftPaddleStep
  split_ifs
  · exact (leftBounce_ball_pos M g).2
  · rfl

theorem rightPaddleStep_ball_x (M : JSMath α) (g : Game α) :
    (rightPaddleStep M g).ball.x =
      if rightCollides g then g.rightPaddle.x - BALL_SIZE else g.ball.x := by
  unfold rightPaddleStep
  split_ifs
  · exact (rightBounce_ball_pos M g).1
  · rfl

theorem rightPaddleStep_ball_y (M : JSMath α) (g : Game α) :
    (rightPaddleStep M g).ball.y = g.ball.y := by
  unfold rightPaddleStep
  split_ifs
  · exact (rightBounce_ball_pos M g).2
  · rfl

theorem leftCollides_eq_true (g : Game α) :
    leftCollides g = true ↔
      g.ball.x ≤ g.leftPaddle.x + g.leftPaddle.width ∧
      g.leftPaddle.y ≤ g.ball.y + BALL_SIZE ∧
      g.ball.y ≤ g.leftPaddle.y + g.leftPaddle.height := by
  simp [leftCollides, and_assoc]

theorem rightCollides_eq_true (g : Game α) :
    rightCollides g = true ↔
      g.rightPaddle.x ≤ g.ball.x + BALL_SIZE ∧
      g.rightPaddle.y ≤ g.ball.y + BALL_SIZE ∧
      g.ball.y ≤ g.rightPaddle.y + g.rightPaddle.height := by
  simp [rightCollides, and_assoc]

/-! ### The out-of-bounds step -/

theorem WIDTH_nonneg (c : Canvas) : (0 : α) ≤ WIDTH c :=
  Nat.cast_nonneg _

theorem scoreStep_right (M : JSMath α) (c : Canvas) (d : Draws α) (g : Game α)
    (h : g.ball.x < 0) :
    scoreStep M c d g = resetBall M c d { g with rightScore := g.rightScore + 1 } := by
  simp [scoreStep, h]

theorem scoreStep_left (M : JSMath α) (c : Canvas) (d : Draws α) (g : Game α)
    (h : WIDTH c < g.ball.x) :
    scoreStep M c d g = resetBall M c d { g with leftScore := g.leftScore + 1 } := by
  have h0 : ¬ g.ball.x < 0 := not_lt.mpr ((WIDTH_nonneg c).trans h.le)
  simp [scoreStep, h, h0]

theorem scoreStep_none (M : JSMath α) (c : Canvas) (d : Draws α) (g : Game α)
    (h0 : ¬ g.ball.x < 0) (h1 : ¬ WIDTH c < g.ball.x) : scoreStep M c d g = g := by
  simp [scoreStep, h0, h1]

/-- What one call of `update()` does to the scores and the ball, by the position `x` of
the ball when the out-of-bounds test is reached. -/
theorem update_scores (M : JSMath α) (c : Canvas) (d : Draws α) (g : Game α)
    (hp : g.paused = false) :
    ((afterPaddles M c g).ball.x < 0 →
      (update M c d g).rightScore = g.rightScore + 1 ∧
      (update M c d g).leftScore = g.leftScore ∧
      (update M c d g).ball =
        (resetBall M c d (afterPaddles M c g)).ball) ∧
    (WIDTH c < (afterPaddles M c g).ball.x →
      (update M c d g).rightScore = g.rightScore ∧
      (update M c d g).leftScore = g.leftScore + 1 ∧
      (update M c d g).ball =
        (resetBall M c d (afterPaddles M c g)).ball) ∧
    (¬ (afterPaddles M c g).ball.x < 0 → ¬ WIDTH c < (afterPaddles M c g).ball.x →
      (update M c d g).rightScore = g.rightScore ∧
      (update M c d g).leftScore = g.leftScore ∧
      (update M c d g).ball = (afterPaddles M c g).ball) := by
  have k := afterPaddles_same M c g
  rw [update_unpaused M c d g hp]
  refine ⟨fun h => ?_, fun h => ?_, fun h0 h1 => ?_⟩
  · have e : afterScore M c d g = _ := scoreStep_right M c d _ h
    simp only [aiStep, e, resetBall, k.1, k.2.1]
    exact ⟨trivial, trivial, trivial⟩
  · have e : afterScore M c d g = _ := scoreStep_left M c d _ h
    simp only [aiStep, e, resetBall, k.1, k.2.1]
    exact ⟨trivial, trivial, trivial⟩
  · have e : afterScore M c d g = _ := scoreStep_none M c d _ h0 h1
    simp only [aiStep, e, k.1, k.2.1]
    exact ⟨trivial, trivial, trivial⟩

/-! ### Scores along a run -/

theorem update_scores_mono (M : JSMath α) (c : Canvas) (d : Draws α) (g : Game α) :
    g.leftScore ≤ (update M c d g).leftScore ∧ g.rightScore ≤ (update M c d g).rightScore := by
  cases hp : g.paused with
  | true => rw [update_paused M c d g hp]; exact ⟨le_refl _, le_refl _⟩
  | false =>
    have h := update_scores M c d g hp
    by_cases h0 : (afterPaddles M c g).ball.x < 0
    · obtain ⟨hr, hl, _⟩ := h.1 h0
      rw [hr, hl]; constructor <;> linarith
    · by_cases h1 : WIDTH c < (afterPaddles M c g).ball.x
      · obtain ⟨hr, hl, _⟩ := h.2.1 h1
        rw [hr, hl]; constructor <;> linarith
      · obtain ⟨hr, hl, _⟩ := h.2.2 h0 h1
        rw [hr, hl]; exact ⟨le_refl _, le_refl _⟩

theorem step_scores_mono (M : JSMath α) (c : Canvas) (g : Game α) (e : Event α) :
    g.leftScore ≤ (step M c g e).leftScore ∧ g.rightScore ≤ (step M c g e).rightScore := by
  cases e with
  | frame d => exact update_scores_mono M c d g
  | mouse clientY rectTop => exact ⟨le_refl _, le_refl _⟩
  | key isSpace =>
    cases isSpace with
    | true => exact ⟨le_refl _, le_refl _⟩
    | false => exact ⟨le_refl _, le_refl _⟩
  | ballSpeed v => exact ⟨le_refl _, le_refl _⟩
  | botDifficulty v => exact ⟨le_refl _, le_refl _⟩

theorem run_scores_mono (M : JSMath α) (c : Canvas) (es : List (Event α)) (g : Game α) :
    g.leftScore ≤ (run M c g es).leftScore ∧ g.rightScore ≤ (run M c g es).rightScore := by
  induction es generalizing g with
  | nil => exact ⟨le_refl _, le_refl _⟩
  | cons e es ih =>
    have h1 := step_scores_mono M c g e
    have h2 := ih (step M c g e)
    exact ⟨h1.1.trans h2.1, h1.2.trans h2.2⟩

theorem run_append (M : JSMath α) (c : Canvas) (g : Game α) (es fs : List (Event α)) :
    run M c g (es ++ fs) = run M c (run M c g es) fs := by
  simp [run, List.foldl_append]

/-- C4. Scoring rule and monotonicity. With `x` the ball's `x` when the out-of-bounds test
is reached (after integration and paddle-collision resolution), one unpaused `update()`
adds exactly 1 to `rightScore` iff `x < 0` and otherwise leaves it, adds exactly 1 to
`leftScore` iff `x > WIDTH` and otherwise leaves it, never changes both, and when neither
holds leaves the ball as the collision resolution left it; every score event puts the ball
at the playfield centre. Hence along any run of frames and input events neither counter
ever decreases, and from the initial state `(0, 0)` both stay non-negative. -/
theorem C4_scoring_rule (M : JSMath α) (c : Canvas) :
    (∀ (d : Draws α) (g : Game α), g.paused = false →
      ((update M c d g).rightScore = g.rightScore + 1 ↔ (afterPaddles M c g).ball.x < 0) ∧
      ((update M c d g).rightScore = g.rightScore ↔ ¬ (afterPaddles M c g).ball.x < 0) ∧
      ((update M c d g).leftScore = g.leftScore + 1 ↔ WIDTH c < (afterPaddles M c g).ball.x) ∧
      ((update M c d g).leftScore = g.leftScore ↔ ¬ WIDTH c < (afterPaddles M c g).ball.x) ∧
      ((update M c d g).rightScore = g.rightScore ∨ (update M c d g).leftScore = g.leftScore) ∧
      (¬ (afterPaddles M c g).ball.x < 0 → ¬ WIDTH c < (afterPaddles M c g).ball.x →
        (update M c d g).ball = (afterPaddles M c g).ball) ∧
      ((afterPaddles M c g).ball.x < 0 ∨ WIDTH c < (afterPaddles M c g).ball.x →
        (update M c d g).ball.x = WIDTH c / 2 - BALL_SIZE / 2 ∧
        (update M c d g).ball.y = HEIGHT c / 2 - BALL_SIZE / 2)) ∧
    (∀ (g : Game α) (es : List (Event α)) (e : Event α),
      (run M c g es).leftScore ≤ (run M c g (es ++ [e])).leftScore ∧
      (run M c g es).rightScore ≤ (run M c g (es ++ [e])).rightScore) ∧
    (∀ (ballSpeed botDifficulty : α) (d : Draws α) (es : List (Event α)),
      0 ≤ (run M c (initialGame M c ballSpeed botDifficulty d) es).leftScore ∧
      0 ≤ (run M c (initialGame M c ballSpeed botDifficulty d) es).rightScore) := by
  refine ⟨?_, ?_, ?_⟩
  · intro d g hp
    have h := update_scores M c d g hp
    have hW : (0 : α) ≤ WIDTH c := WIDTH_nonneg c
    by_cases h0 : (afterPaddles M c g).ball.x < 0
    · have h1 : ¬ WIDTH c < (afterPaddles M c g).ball.x := fun h1 => by linarith
      obtain ⟨hr, hl, hb⟩ := h.1 h0
      refine ⟨by simp [hr, h0], by simp [hr, h0], by simp [hl, h1], by simp [hl, h1],
        Or.inr hl, fun h0' => absurd h0 h0', fun _ => ?_⟩
      rw [hb]; exact ⟨rfl, rfl⟩
    · by_cases h1 : WIDTH c < (afterPaddles M c g).ball.x
      · obtain ⟨hr, hl, hb⟩ := h.2.1 h1
        refine ⟨by simp [hr, h0], by simp [hr, h0], by simp [hl, h1], by simp [hl, h1],
          Or.inl hr, fun _ h1' => absurd h1 h1', fun _ => ?_⟩
        rw [hb]; exact ⟨rfl, rfl⟩
      · obtain ⟨hr, hl, hb⟩ := h.2.2 h0 h1
        refine ⟨by simp [hr, h0], by simp [hr, h0], by simp [hl, h1], by simp [hl, h1],
          Or.inl hr, fun _ _ => hb, fun h' => ?_⟩
        rcases h' with h' | h'
        · exact absurd h' h0
        · exact absurd h' h1
  · intro g es e
    rw [run_append]
    exact run_scores_mono M c [e] _
  · intro bs ai d es
    exact run_scores_mono M c es (initialGame M c bs ai d)

/-- C4 at a ball leaving through the left edge above the left paddle. -/
theorem C4_scoring_rule_witness :
    ((update realMath sampleCanvas ⟨0, 0, 0⟩
        (sampleGame sampleCanvas 150 50 ⟨0, 20, -3, 4⟩)).rightScore =
      (sampleGame sampleCanvas (150 : ℝ) 50 ⟨0, 20, -3, 4⟩).rightScore + 1 ↔
      (afterPaddles realMath sampleCanvas
        (sampleGame sampleCanvas 150 50 ⟨0, 20, -3, 4⟩)).ball.x < 0) :=
  ((C4_scoring_rule realMath sampleCanvas).1 ⟨0, 0, 0⟩
    (sampleGame sampleCanvas 150 50 ⟨0, 20, -3, 4⟩) rfl).1

/-- C3, counterexample. With the ball at `x = 0` moving left at `vx = -3` while it
overlaps the left paddle vertically, `update()` takes the left-paddle branch: the ball is
put on the paddle's front edge `x = 22` and nobody scores. -/
theorem C3_counterexample :
    (sampleGame sampleCanvas (150 : ℝ) 50 ⟨0, 176, -3, 4⟩).paused = false ∧
    (sampleGame sampleCanvas (150 : ℝ) 50 ⟨0, 176, -3, 4⟩).ball.x = 0 ∧
    (sampleGame sampleCanvas (150 : ℝ) 50 ⟨0, 176, -3, 4⟩).ball.vx = -3 ∧
    (sampleGame sampleCanvas (150 : ℝ) 50 ⟨0, 176, -3, 4⟩).rightScore = 0 ∧
    (update realMath sampleCanvas ⟨0, 0, 0⟩
      (sampleGame sampleCanvas 150 50 ⟨0, 176, -3, 4⟩)).rightScore = 0 ∧
    (update realMath sampleCanvas ⟨0, 0, 0⟩
      (sampleGame sampleCanvas 150 50 ⟨0, 176, -3, 4⟩)).ball.x = 22 := by
  have hl : leftCollides (afterWalls sampleCanvas
      (sampleGame sampleCanvas (150 : ℝ) 50 ⟨0, 176, -3, 4⟩)) = true := by
    norm_num [leftCollides, afterWalls, wallStep, integrate, sampleGame, sampleCanvas,
      BALL_SIZE, HEIGHT, PADDLE_WIDTH, PADDLE_HEIGHT]
  have hx1 : (leftPaddleStep realMath (afterWalls sampleCanvas
      (sampleGame sampleCanvas (150 : ℝ) 50 ⟨0, 176, -3, 4⟩))).ball.x = 22 := by
    rw [leftPaddleStep_ball_x, if_pos hl]
    norm_num [afterWalls, wallStep, integrate, sampleGame, PADDLE_WIDTH]
  have hr : rightCollides (leftPaddleStep realMath (afterWalls sampleCanvas
      (sampleGame sampleCanvas (150 : ℝ) 50 ⟨0, 176, -3, 4⟩))) = false := by
    rw [Bool.eq_false_iff, Ne, rightCollides_eq_true, hx1,
      (leftPaddleStep_same realMath _).2.2.2.2.2.2]
    norm_num [afterWalls, wallStep, integrate, sampleGame, sampleCanvas, BALL_SIZE, WIDTH,
      PADDLE_WIDTH]
  have hx2 : (afterPaddles realMath sampleCanvas
      (sampleGame sampleCanvas (150 : ℝ) 50 ⟨0, 176, -3, 4⟩)).ball.x = 22 := by
    unfold afterPaddles
    rw [rightPaddleStep_ball_x, hr]
    simpa using hx1
  have h := (update_scores realMath sampleCanvas ⟨0, 0, 0⟩
    (sampleGame sampleCanvas (150 : ℝ) 50 ⟨0, 176, -3, 4⟩) rfl).2.2
    (by rw [hx2]; norm_num) (by rw [hx2]; norm_num [WIDTH, sampleCanvas])
  refine ⟨rfl, rfl, rfl, rfl, h.1, ?_⟩
  rw [h.2.2, hx2]

/-- C3 (amended). Scoring scenario: if the game is not paused, the ball has `x = 0` and
`vx = -3`, and after integration and wall resolution the ball fails the left-paddle
collision test, then one `update()` increases `rightScore` by exactly 1, leaves `leftScore`
unchanged, puts the ball at the playfield centre
`(WIDTH/2 - BALL_SIZE/2, HEIGHT/2 - BALL_SIZE/2)` and gives it a velocity with
`vx² + vy² = BALL_SPEED²`, of magnitude `BALL_SPEED` when `BALL_SPEED ≥ 0`. -/
theorem C3_scoring_scenario (c : Canvas) (d : Draws ℝ) (g : Game ℝ)
    (hp : g.paused = false) (hx : g.ball.x = 0) (hv : g.ball.vx = -3)
    (hmiss : leftCollides (afterWalls c g) = false) :
    (update realMath c d g).rightScore = g.rightScore + 1 ∧
    (update realMath c d g).leftScore = g.leftScore ∧
    (update realMath c d g).ball.x = WIDTH c / 2 - BALL_SIZE / 2 ∧
    (update realMath c d g).ball.y = HEIGHT c / 2 - BALL_SIZE / 2 ∧
    speedSq (update realMath c d g).ball = g.BALL_SPEED ^ 2 ∧
    (0 ≤ g.BALL_SPEED → Real.sqrt (speedSq (update realMath c d g).ball) = g.BALL_SPEED) := by
  have hx0 : (afterWalls c g).ball.x = -3 := by
    rw [afterWalls_ball_x, hx, hv]; norm_num
  have hx1 : (leftPaddleStep realMath (afterWalls c g)).ball.x = -3 := by
    rw [leftPaddleStep_ball_x, hmiss]; simpa using hx0
  have hx2 : (afterPaddles realMath c g).ball.x < 0 := by
    unfold afterPaddles
    rw [rightPaddleStep_ball_x]
    split_ifs with hr
    · have h := ((rightCollides_eq_true _).1 hr).1
      rw [hx1] at h
      linarith
    · rw [hx1]; norm_num
  obtain ⟨hr, hl, hb⟩ := (update_scores realMath c d g hp).1 hx2
  have hs : speedSq (update realMath c d g).ball = g.BALL_SPEED ^ 2 := by
    rw [hb, resetBall_speedSq, (afterPaddles_same realMath c g).2.2.2.1]
  refine ⟨hr, hl, by rw [hb]; rfl, by rw [hb]; rfl, hs, fun h0 => ?_⟩
  rw [hs, Real.sqrt_sq h0]

/-- C3 (amended) at a ball with `x = 0`, `vx = -3` passing above the left paddle: the
right side scores and the ball is served from `x = 800/2 - 16/2 = 392`. -/
theorem C3_scoring_scenario_witness :
    (update realMath sampleCanvas ⟨0, 0, 0⟩
      (sampleGame sampleCanvas 150 50 ⟨0, 20, -3, 4⟩)).rightScore = 1 ∧
    (update realMath sampleCanvas ⟨0, 0, 0⟩
      (sampleGame sampleCanvas 150 50 ⟨0, 20, -3, 4⟩)).ball.x = 392 := by
  have h := C3_scoring_scenario sampleCanvas ⟨0, 0, 0⟩
    (sampleGame sampleCanvas 150 50 ⟨0, 20, -3, 4⟩) rfl rfl rfl
    (by norm_num [leftCollides, afterWalls, wallStep, integrate, sampleGame, sampleCanvas,
      BALL_SIZE, HEIGHT, PADDLE_WIDTH, PADDLE_HEIGHT])
  refine ⟨h.1, ?_⟩
  rw [h.2.2.1]
  norm_num [WIDTH, sampleCanvas, BALL_SIZE]

/-! ### Where the ball strikes the paddle -/

/-- When the ball's vertical extent overlaps a paddle of height `PADDLE_HEIGHT`, the
normalized intersect is at most `29/25 = 1.16` in absolute value. -/
theorem normalizedIntersectY_bounds (p : Paddle α) (y : α) (hh : p.height = PADDLE_HEIGHT)
    (h1 : p.y ≤ y + BALL_SIZE) (h2 : y ≤ p.y + p.height) :
    -(29 / 25) ≤ normalizedIntersectY p y ∧ normalizedIntersectY p y ≤ 29 / 25 := by
  simp only [normalizedIntersectY, hh, PADDLE_HEIGHT, BALL_SIZE] at *
  constructor
  · rw [le_div_iff₀ (by norm_num)]; linarith
  · rw [div_le_iff₀ (by norm_num)]; linarith

/-- C5, counterexample. The ball touching the left paddle's lower end from below: the
left-paddle branch is taken and `normalizedIntersectY` is `-1.16`, outside `[-1, 1]`. -/
theorem C5_counterexample :
    leftCollides (afterWalls sampleCanvas
      (sampleGame sampleCanvas (100 : ℚ) 50 ⟨25, 196, -3, 4⟩)) = true ∧
    normalizedIntersectY
      (afterWalls sampleCanvas (sampleGame sampleCanvas (100 : ℚ) 50 ⟨25, 196, -3, 4⟩)).leftPaddle
      (afterWalls sampleCanvas (sampleGame sampleCanvas (100 : ℚ) 50 ⟨25, 196, -3, 4⟩)).ball.y
      = -(29 / 25) ∧
    ¬ (-1 ≤ normalizedIntersectY
      (afterWalls sampleCanvas (sampleGame sampleCanvas (100 : ℚ) 50 ⟨25, 196, -3, 4⟩)).leftPaddle
      (afterWalls sampleCanvas
        (sampleGame sampleCanvas (100 : ℚ) 50 ⟨25, 196, -3, 4⟩)).ball.y) := by
  have e : normalizedIntersectY
      (afterWalls sampleCanvas (sampleGame sampleCanvas (100 : ℚ) 50 ⟨25, 196, -3, 4⟩)).leftPaddle
      (afterWalls sampleCanvas (sampleGame sampleCanvas (100 : ℚ) 50 ⟨25, 196, -3, 4⟩)).ball.y
      = -(29 / 25) := by
    norm_num [normalizedIntersectY, afterWalls, wallStep, integrate, sampleGame, sampleCanvas,
      BALL_SIZE, HEIGHT, PADDLE_WIDTH, PADDLE_HEIGHT]
  refine ⟨?_, e, ?_⟩
  · norm_num [leftCollides, afterWalls, wallStep, integrate, sampleGame, sampleCanvas,
      BALL_SIZE, HEIGHT, PADDLE_WIDTH, PADDLE_HEIGHT]
  · rw [e]; norm_num

/-- C5 (amended). For every state in which `update()` takes a paddle-collision branch
(left or right), with the paddle's height `PADDLE_HEIGHT`, the computed
`normalizedIntersectY = (paddleCenterY - ballCenterY) / (paddleHeight/2)` lies in
`[-1.16, 1.16]`, where `1.16 = (PADDLE_HEIGHT/2 + BALL_SIZE/2) / (PADDLE_HEIGHT/2)`. -/
theorem C5_normalized_intersect_range (M : JSMath α) (c : Canvas) (g : Game α)
    (hl : g.leftPaddle.height = PADDLE_HEIGHT) (hr : g.rightPaddle.height = PADDLE_HEIGHT) :
    (leftCollides (afterWalls c g) = true →
      -(29 / 25) ≤ normalizedIntersectY (afterWalls c g).leftPaddle (afterWalls c g).ball.y ∧
      normalizedIntersectY (afterWalls c g).leftPaddle (afterWalls c g).ball.y ≤ 29 / 25) ∧
    (rightCollides (leftPaddleStep M (afterWalls c g)) = true →
      -(29 / 25) ≤ normalizedIntersectY (leftPaddleStep M (afterWalls c g)).rightPaddle
        (leftPaddleStep M (afterWalls c g)).ball.y ∧
      normalizedIntersectY (leftPaddleStep M (afterWalls c g)).rightPaddle
        (leftPaddleStep M (afterWalls c g)).ball.y ≤ 29 / 25) := by
  have hw := afterWalls_same c g
  have hs := hw.trans (leftPaddleStep_same M (afterWalls c g))
  constructor
  · intro h
    have h' := (leftCollides_eq_true _).1 h
    exact normalizedIntersectY_bounds _ _ (by rw [hw.2.2.2.2.2.1, hl]) h'.2.1 h'.2.2
  · intro h
    have h' := (rightCollides_eq_true _).1 h
    exact normalizedIntersectY_bounds _ _ (by rw [hs.2.2.2.2.2.2, hr]) h'.2.1 h'.2.2

/-- C5 (amended) at a ball striking the left paddle dead centre. -/
theorem C5_normalized_intersect_range_witness :
    -(29 / 25) ≤ normalizedIntersectY
      (afterWalls sampleCanvas (sampleGame sampleCanvas (100 : ℝ) 50 ⟨25, 138, -3, 4⟩)).leftPaddle
      (afterWalls sampleCanvas (sampleGame sampleCanvas (100 : ℝ) 50 ⟨25, 138, -3, 4⟩)).ball.y ∧
    normalizedIntersectY
      (afterWalls sampleCanvas (sampleGame sampleCanvas (100 : ℝ) 50 ⟨25, 138, -3, 4⟩)).leftPaddle
      (afterWalls sampleCanvas (sampleGame sampleCanvas (100 : ℝ) 50 ⟨25, 138, -3, 4⟩)).ball.y
      ≤ 29 / 25 :=
  (C5_normalized_intersect_range realMath sampleCanvas
    (sampleGame sampleCanvas 100 50 ⟨25, 138, -3, 4⟩) rfl rfl).1
    (by norm_num [leftCollides, afterWalls, wallStep, integrate, sampleGame, sampleCanvas,
      BALL_SIZE, HEIGHT, PADDLE_WIDTH, PADDLE_HEIGHT])

/-- C6. Bounce direction: whatever the ball's incoming velocity, strike position and
`BALL_SPEED`, right after the left-paddle collision branch of `update()` the ball has
`x = leftPaddle.x + leftPaddle.width` and `vx ≥ 0`, and right after the right-paddle
collision branch it has `x = rightPaddle.x - BALL_SIZE` and `vx ≤ 0`. -/
theorem C6_bounce_direction (M : JSMath α) (g : Game α) :
    (leftCollides g = true →
      (leftPaddleStep M g).ball.x = g.leftPaddle.x + g.leftPaddle.width ∧
      0 ≤ (leftPaddleStep M g).ball.vx) ∧
    (rightCollides g = true →
      (rightPaddleStep M g).ball.x = g.rightPaddle.x - BALL_SIZE ∧
      (rightPaddleStep M g).ball.vx ≤ 0) := by
  constructor
  · intro h
    simp only [leftPaddleStep, h, if_true, leftBounce, setBallVelocityFromAngle]
    split_ifs with hv
    · exact ⟨rfl, abs_nonneg _⟩
    · exact ⟨rfl, not_lt.mp hv⟩
  · intro h
    simp only [rightPaddleStep, h, if_true, rightBounce, setBallVelocityFromAngle]
    split_ifs with hv
    · exact ⟨rfl, neg_nonpos.mpr (abs_nonneg _)⟩
    · exact ⟨rfl, not_lt.mp hv⟩

/-- C6 at a ball striking the left paddle: it is put at `x = 10 + 12 = 22`. -/
theorem C6_bounce_direction_witness :
    (leftPaddleStep realMath (afterWalls sampleCanvas
      (sampleGame sampleCanvas (100 : ℝ) 50 ⟨25, 138, -3, 4⟩))).ball.x = 22 ∧
    0 ≤ (leftPaddleStep realMath (afterWalls sampleCanvas
      (sampleGame sampleCanvas (100 : ℝ) 50 ⟨25, 138, -3, 4⟩))).ball.vx := by
  have h := (C6_bounce_direction realMath (afterWalls sampleCanvas
    (sampleGame sampleCanvas (100 : ℝ) 50 ⟨25, 138, -3, 4⟩))).1
    (by norm_num [leftCollides, afterWalls, wallStep, integrate, sampleGame, sampleCanvas,
      BALL_SIZE, HEIGHT, PADDLE_WIDTH, PADDLE_HEIGHT])
  refine ⟨?_, h.2⟩
  rw [h.1]
  norm_num [afterWalls, wallStep, integrate, sampleGame, PADDLE_WIDTH]

/-- On a left-paddle hit with `BALL_SPEED ≥ 0` and paddle height `PADDLE_HEIGHT`, the
velocity computed by `setBallVelocityFromAngle` already points right. -/
theorem left_bounce_cos_nonneg (p : Paddle ℝ) (y : ℝ) (hh : p.height = PADDLE_HEIGHT)
    (h1 : p.y ≤ y + BALL_SIZE) (h2 : y ≤ p.y + p.height) :
    0 ≤ Real.cos (normalizedIntersectY p y * (Real.pi / 3)) := by
  obtain ⟨hlo, hhi⟩ := normalizedIntersectY_bounds p y hh h1 h2
  have hpi := Real.pi_pos
  apply Real.cos_nonneg_of_mem_Icc
  constructor
  · nlinarith
  · nlinarith

/-- C7. Bounce formula and dead-centre scenario (over the reals, `BALL_SPEED ≥ 0`, paddle
height `PADDLE_HEIGHT`): after every left-paddle collision the velocity is
`(s cos(n π/3), s sin(n π/3))` with `n` the normalized intersect and `s = BALL_SPEED`; when
the ball's centre `y` equals the left paddle's centre `y`, then `n = 0`, the bounce angle
is exactly `0` and the velocity is exactly `(BALL_SPEED, 0)`. -/
theorem C7_bounce_formula (g : Game ℝ) (hc : leftCollides g = true)
    (hs : 0 ≤ g.BALL_SPEED) (hh : g.leftPaddle.height = PADDLE_HEIGHT) :
    ((leftPaddleStep realMath g).ball.vx =
        g.BALL_SPEED * Real.cos (normalizedIntersectY g.leftPaddle g.ball.y * (Real.pi / 3)) ∧
      (leftPaddleStep realMath g).ball.vy =
        g.BALL_SPEED * Real.sin (normalizedIntersectY g.leftPaddle g.ball.y * (Real.pi / 3))) ∧
    (g.ball.y + BALL_SIZE / 2 = g.leftPaddle.y + g.leftPaddle.height / 2 →
      normalizedIntersectY g.leftPaddle g.ball.y = 0 ∧
      normalizedIntersectY g.leftPaddle g.ball.y * (realMath.PI / 3) = 0 ∧
      (leftPaddleStep realMath g).ball.vx = g.BALL_SPEED ∧
      (leftPaddleStep realMath g).ball.vy = 0) := by
  have h' := (leftCollides_eq_true g).1 hc
  have hcos := left_bounce_cos_nonneg g.leftPaddle g.ball.y hh h'.2.1 h'.2.2
  have hvx : ¬ g.BALL_SPEED *
      Real.cos (normalizedIntersectY g.leftPaddle g.ball.y * (Real.pi / 3)) < 0 :=
    not_lt.mpr (mul_nonneg hs hcos)
  have hv : (leftPaddleStep realMath g).ball.vx =
        g.BALL_SPEED * Real.cos (normalizedIntersectY g.leftPaddle g.ball.y * (Real.pi / 3)) ∧
      (leftPaddleStep realMath g).ball.vy =
        g.BALL_SPEED * Real.sin (normalizedIntersectY g.leftPaddle g.ball.y * (Real.pi / 3)) := by
    simp only [leftPaddleStep, hc, if_true, leftBounce, setBallVelocityFromAngle, realMath, hvx,
      if_false]
    exact ⟨trivial, trivial⟩
  refine ⟨hv, fun hmid => ?_⟩
  have hn : normalizedIntersectY g.leftPaddle g.ball.y = 0 := by
    simp only [normalizedIntersectY]
    rw [hmid, sub_self, zero_div]
  refine ⟨hn, by rw [hn, zero_mul], ?_, ?_⟩
  · rw [hv.1, hn, zero_mul, Real.cos_zero, mul_one]
  · rw [hv.2, hn, zero_mul, Real.sin_zero, mul_zero]

/-- C7 at the scenario of the specification: left paddle at `y = 100` of height 100, ball
centre at `y = 150`, speed 5: the velocity becomes `(5, 0)`. -/
theorem C7_bounce_formula_witness :
    (leftPaddleStep realMath (afterWalls sampleCanvas
      (sampleGame sampleCanvas (100 : ℝ) 50 ⟨25, 138, -3, 4⟩))).ball.vx = 5 ∧
    (leftPaddleStep realMath (afterWalls sampleCanvas
      (sampleGame sampleCanvas (100 : ℝ) 50 ⟨25, 138, -3, 4⟩))).ball.vy = 0 :=
  have h := (C7_bounce_formula (afterWalls sampleCanvas
    (sampleGame sampleCanvas (100 : ℝ) 50 ⟨25, 138, -3, 4⟩))
    (by norm_num [leftCollides, afterWalls, wallStep, integrate, sampleGame, sampleCanvas,
      BALL_SIZE, HEIGHT, PADDLE_WIDTH, PADDLE_HEIGHT])
    (by norm_num [afterWalls, wallStep, integrate, sampleGame])
    rfl).2
    (by norm_num [afterWalls, wallStep, integrate, sampleGame, sampleCanvas,
      BALL_SIZE, HEIGHT, PADDLE_HEIGHT])
  ⟨h.2.2.1, h.2.2.2⟩

/-- Clamping into `[lo, hi]` after a move by `a` from a point of `[lo, hi]` moves by at
most `|a|`. -/
theorem clamp_step_le (lo hi y a : α) (h1 : lo ≤ y) (h2 : y ≤ hi) :
    |max lo (min hi (y + a)) - y| ≤ |a| := by
  rw [abs_le]
  have ha := neg_abs_le a
  have hb := le_abs_self a
  rcases max_cases lo (min hi (y + a)) with ⟨e, _⟩ | ⟨e, h⟩ <;>
    rcases min_cases hi (y + a) with ⟨e', h'⟩ | ⟨e', h'⟩ <;>
    rw [e] <;> (try rw [e']) <;> (try rw [e'] at h) <;> constructor <;> linarith

/-- C8. AI controller step: with `rightPaddle.y` inside its bounds (paddle height
`PADDLE_HEIGHT`), an unpaused `update()` leaves the ball as the collision resolution and
any score reset of that frame left it, computes
`target = ball.y + BALL_SIZE/2 - rightPaddle.height/2` from that ball, and sets
`rightPaddle.y` to `clamp(y + AI_SPEED)` if `target > y`, to `clamp(y - AI_SPEED)` if
`target < y`, and to `y` if `target = y`; the paddle moves by at most `|AI_SPEED|`, which
is `AI_SPEED` for the non-negative speeds the game uses. -/
theorem C8_ai_step (M : JSMath α) (c : Canvas) (d : Draws α) (g : Game α)
    (hp : g.paused = false) (hh : g.rightPaddle.height = PADDLE_HEIGHT)
    (hy : PaddleInBounds c g.rightPaddle.y) :
    (update M c d g).ball = (afterScore M c d g).ball ∧
    aiTarget (afterScore M c d g) =
      (update M c d g).ball.y + BALL_SIZE / 2 - g.rightPaddle.height / 2 ∧
    (aiTarget (afterScore M c d g) > g.rightPaddle.y →
      (update M c d g).rightPaddle.y =
        max PADDLE_VERTICAL_MARGIN
          (min (HEIGHT c - PADDLE_HEIGHT - PADDLE_VERTICAL_MARGIN)
            (g.rightPaddle.y + g.AI_SPEED))) ∧
    (aiTarget (afterScore M c d g) < g.rightPaddle.y →
      (update M c d g).rightPaddle.y =
        max PADDLE_VERTICAL_MARGIN
          (min (HEIGHT c - PADDLE_HEIGHT - PADDLE_VERTICAL_MARGIN)
            (g.rightPaddle.y - g.AI_SPEED))) ∧
    (aiTarget (afterScore M c d g) = g.rightPaddle.y →
      (update M c d g).rightPaddle.y = g.rightPaddle.y) ∧
    |(update M c d g).rightPaddle.y - g.rightPaddle.y| ≤ |g.AI_SPEED| ∧
    (0 ≤ g.AI_SPEED → |(update M c d g).rightPaddle.y - g.rightPaddle.y| ≤ g.AI_SPEED) := by
  obtain ⟨_, _, hai, _, hrp⟩ := afterScore_keeps M c d g
  have hup := update_unpaused M c d g hp
  have hyv : (update M c d g).rightPaddle.y =
      max PADDLE_VERTICAL_MARGIN (min (HEIGHT c - PADDLE_HEIGHT - PADDLE_VERTICAL_MARGIN)
        (if aiTarget (afterScore M c d g) > g.rightPaddle.y then g.rightPaddle.y + g.AI_SPEED
          else if aiTarget (afterScore M c d g) < g.rightPaddle.y then
            g.rightPaddle.y - g.AI_SPEED
          else g.rightPaddle.y)) := by
    rw [hup]
    simp only [aiStep, hrp, hai, hh]
  have hgt : ∀ t : α, t > g.rightPaddle.y → ¬ t < g.rightPaddle.y := fun t h => not_lt.mpr h.le
  have hmove : |(update M c d g).rightPaddle.y - g.rightPaddle.y| ≤ |g.AI_SPEED| := by
    rw [hyv]
    split_ifs
    · exact clamp_step_le _ _ _ _ hy.1 hy.2
    · have := clamp_step_le _ _ g.rightPaddle.y (-g.AI_SPEED) hy.1 hy.2
      rwa [abs_neg, ← sub_eq_add_neg] at this
    · rw [clamp_id _ _ _ hy.1 hy.2, sub_self, abs_zero]
      exact abs_nonneg _
  refine ⟨by rw [hup]; rfl, ?_, fun h => ?_, fun h => ?_, fun h => ?_, hmove, fun h => ?_⟩
  · rw [hup]
    simp only [aiTarget, hrp]
    rfl
  · rw [hyv, if_pos h]
  · rw [hyv, if_neg (not_lt.mpr h.le), if_pos h]
  · rw [hyv, if_neg (by rw [h]; exact lt_irrefl _), if_neg (by rw [h]; exact lt_irrefl _)]
    exact clamp_id _ _ _ hy.1 hy.2
  · rwa [abs_of_nonneg h] at hmove

/-- C8 at the scenario of the specification: paddle at `y = 50`, target `80`,
`AI_SPEED = 4` gives `y = 54`. -/
theorem C8_ai_step_witness :
    aiTarget (afterScore realMath sampleCanvas ⟨0, 0, 0⟩
      (sampleGame sampleCanvas (150 : ℝ) 50 ⟨400, 118, 3, 4⟩)) = 80 ∧
    (update realMath sampleCanvas ⟨0, 0, 0⟩
      (sampleGame sampleCanvas (150 : ℝ) 50 ⟨400, 118, 3, 4⟩)).rightPaddle.y = 54 := by
  have ht : aiTarget (afterScore realMath sampleCanvas ⟨0, 0, 0⟩
      (sampleGame sampleCanvas (150 : ℝ) 50 ⟨400, 118, 3, 4⟩)) = 80 := by
    norm_num [aiTarget, afterScore, scoreStep, afterPaddles, rightPaddleStep, leftPaddleStep,
      leftCollides, rightCollides, afterWalls, wallStep, integrate, sampleGame, sampleCanvas,
      BALL_SIZE, HEIGHT, WIDTH, PADDLE_WIDTH, PADDLE_HEIGHT]
  have h := (C8_ai_step realMath sampleCanvas ⟨0, 0, 0⟩
    (sampleGame sampleCanvas 150 50 ⟨400, 118, 3, 4⟩) rfl rfl
    (by norm_num [PaddleInBounds, sampleGame, sampleCanvas, HEIGHT, PADDLE_HEIGHT,
      PADDLE_VERTICAL_MARGIN])).2.2.1
    (by rw [ht]; norm_num [sampleGame])
  refine ⟨ht, ?_⟩
  rw [h]
  norm_num [sampleGame, sampleCanvas, HEIGHT, PADDLE_HEIGHT, PADDLE_VERTICAL_MARGIN]

/-! ### Pause -/

/-- C9. Pause gating: with `paused = true`, any number of consecutive calls of `update()`
(one per element of `ds`) leaves the whole state, in particular the ball's position and
velocity, both paddles and both scores, exactly unchanged. -/
theorem C9_pause_gating (M : JSMath α) (c : Canvas) (ds : List (Draws α)) (g : Game α)
    (hp : g.paused = true) : updates M c ds g = g := by
  induction ds with
  | nil => rfl
  | cons d ds ih =>
    simp only [updates, List.foldl_cons] at ih ⊢
    rw [update_paused M c d g hp]
    exact ih

/-- C9 at a game paused by the space key, followed by three frames. -/
theorem C9_pause_gating_witness :
    updates realMath sampleCanvas [⟨0, 0, 0⟩, ⟨1 / 2, 1 / 2, 1 / 2⟩, ⟨0, 0, 0⟩]
      (keydown true (sampleGame sampleCanvas (150 : ℝ) 50 ⟨400, 118, 3, 4⟩)) =
    keydown true (sampleGame sampleCanvas (150 : ℝ) 50 ⟨400, 118, 3, 4⟩) :=
  C9_pause_gating realMath sampleCanvas _ _ rfl

/-! ### The serve angle -/

/-- The angle drawn by `getRandomBallAngle` before the two flips lies in
`[π/9, π/3.5)`. -/
theorem baseAngle_mem (r1 : ℝ) (h0 : 0 ≤ r1) (h1 : r1 < 1) :
    Real.pi / 9 ≤ Real.pi / 9 + r1 * (Real.pi / 3.5 - Real.pi / 9) ∧
    Real.pi / 9 + r1 * (Real.pi / 3.5 - Real.pi / 9) < Real.pi / 3.5 := by
  have hpi := Real.pi_pos
  have hgap : 0 < Real.pi / 3.5 - Real.pi / 9 := by
    have : Real.pi / 3.5 - Real.pi / 9 = Real.pi * (11 / 63) := by ring
    rw [this]; positivity
  constructor
  · nlinarith
  · nlinarith

/-- C10, counterexample. With all three draws `0` both flips fire and the returned angle
is `π + π/9`, whose magnitude lies in neither `[π/9, π/3.5]` nor `[π - π/3.5, π - π/9]`. -/
theorem C10_counterexample :
    (0 : ℝ) ≤ 0 ∧ (0 : ℝ) < 1 ∧
    getRandomBallAngle realMath ⟨0, 0, 0⟩ = Real.pi + Real.pi / 9 ∧
    ¬ (Real.pi / 9 ≤ |getRandomBallAngle realMath ⟨0, 0, 0⟩| ∧
        |getRandomBallAngle realMath ⟨0, 0, 0⟩| ≤ Real.pi / 3.5) ∧
    ¬ (Real.pi - Real.pi / 3.5 ≤ |getRandomBallAngle realMath ⟨0, 0, 0⟩| ∧
        |getRandomBallAngle realMath ⟨0, 0, 0⟩| ≤ Real.pi - Real.pi / 9) := by
  have hpi := Real.pi_pos
  have e : getRandomBallAngle realMath ⟨0, 0, 0⟩ = Real.pi + Real.pi / 9 := by
    norm_num [getRandomBallAngle, realMath]
  have hpos : 0 ≤ Real.pi + Real.pi / 9 := by positivity
  refine ⟨le_refl _, one_pos, e, ?_, ?_⟩
  · rw [e, abs_of_nonneg hpos]
    rintro ⟨_, h⟩
    have : Real.pi / 3.5 = Real.pi * (2 / 7) := by ring
    rw [this] at h
    nlinarith
  · rw [e, abs_of_nonneg hpos]
    rintro ⟨_, h⟩
    linarith [div_pos hpi (by norm_num : (0 : ℝ) < 9)]

/-- C10 (amended). Serve angle range: for draws with `r1` in `[0, 1)`, unless both flips
fire the magnitude `|angle|` of the angle returned by `getRandomBallAngle()` lies in
`[π/9, π/3.5]` or in the reflected range `[π - π/3.5, π - π/9]`; when both fire
(`r2 < 0.5` and `r3 < 0.5`) the returned angle is `π + a` with `a` in `[π/9, π/3.5]`, so it
lies in `[π + π/9, π + π/3.5]` and it is the angle less a full turn whose magnitude lies in
the reflected range. -/
theorem C10_serve_angle_range (d : Draws ℝ) (h0 : 0 ≤ d.r1) (h1 : d.r1 < 1) :
    (¬ (d.r2 < 0.5 ∧ d.r3 < 0.5) →
      (Real.pi / 9 ≤ |getRandomBallAngle realMath d| ∧
        |getRandomBallAngle realMath d| ≤ Real.pi / 3.5) ∨
      (Real.pi - Real.pi / 3.5 ≤ |getRandomBallAngle realMath d| ∧
        |getRandomBallAngle realMath d| ≤ Real.pi - Real.pi / 9)) ∧
    (d.r2 < 0.5 ∧ d.r3 < 0.5 →
      (Real.pi + Real.pi / 9 ≤ getRandomBallAngle realMath d ∧
        getRandomBallAngle realMath d ≤ Real.pi + Real.pi / 3.5) ∧
      (Real.pi - Real.pi / 3.5 ≤ |getRandomBallAngle realMath d - 2 * Real.pi| ∧
        |getRandomBallAngle realMath d - 2 * Real.pi| ≤ Real.pi - Real.pi / 9)) := by
  have hpi := Real.pi_pos
  obtain ⟨ha, hb⟩ := baseAngle_mem d.r1 h0 h1
  have hmax : Real.pi / 3.5 = Real.pi * (2 / 7) := by ring
  rw [hmax] at ha hb
  simp only [getRandomBallAngle, realMath, hmax]
  generalize Real.pi / 9 + d.r1 * (Real.pi * (2 / 7) - Real.pi / 9) = a at ha hb
  have ha0 : 0 < a := lt_of_lt_of_le (by positivity) ha
  constructor
  · intro hnot
    by_cases h2 : d.r2 < 0.5
    · have h3 : ¬ d.r3 < 0.5 := fun h3 => hnot ⟨h2, h3⟩
      rw [if_pos h2, if_neg h3, abs_neg, abs_of_pos ha0]
      exact Or.inl ⟨ha, hb.le⟩
    · rw [if_neg h2]
      by_cases h3 : d.r3 < 0.5
      · rw [if_pos h3, abs_of_nonneg (by nlinarith)]
        exact Or.inr ⟨by linarith, by linarith⟩
      · rw [if_neg h3, abs_of_pos ha0]
        exact Or.inl ⟨ha, hb.le⟩
  · rintro ⟨h2, h3⟩
    rw [if_pos h2, if_pos h3]
    refine ⟨⟨by linarith, by linarith⟩, ?_⟩
    rw [abs_of_nonpos (by nlinarith)]
    exact ⟨by linarith, by linarith⟩

/-- C10 (amended) at the draws `(1/2, 1/2, 1/2)`, for which no flip fires. -/
theorem C10_serve_angle_range_witness :
    (Real.pi / 9 ≤ |getRandomBallAngle realMath ⟨1 / 2, 1 / 2, 1 / 2⟩| ∧
      |getRandomBallAngle realMath ⟨1 / 2, 1 / 2, 1 / 2⟩| ≤ Real.pi / 3.5) ∨
    (Real.pi - Real.pi / 3.5 ≤ |getRandomBallAngle realMath ⟨1 / 2, 1 / 2, 1 / 2⟩| ∧
      |getRandomBallAngle realMath ⟨1 / 2, 1 / 2, 1 / 2⟩| ≤ Real.pi - Real.pi / 9) :=
  (C10_serve_angle_range ⟨1 / 2, 1 / 2, 1 / 2⟩ (by norm_num) (by norm_num)).1 (by norm_num)

/-! ### Persisted settings -/

theorem getSetting_missing (localStorage : String → Option String)
    (toNumber : String → JSNum α) (key : String) (fallback : JSNum α)
    (h : localStorage key = none) : getSetting localStorage toNumber key fallback = fallback := by
  simp [getSetting, h]

theorem getSetting_stored (localStorage : String → Option String)
    (toNumber : String → JSNum α) (key value : String) (fallback : JSNum α)
    (h : localStorage key = some value) :
    getSetting localStorage toNumber key fallback = toNumber value := by
  simp [getSetting, h]

/-- The clamp of lines 34-35 on a number that is not `NaN`. -/
theorem clamp_num (v : α) :
    jsMax (.num 1) (jsMin (.num 10) (.num v)) = .num (max 1 (min 10 v)) :=
  rfl

/-- The clamp of lines 34-35 lets `NaN` through. -/
theorem clamp_nan : jsMax (.num 1) (jsMin (.num 10) (.nan : JSNum α)) = .nan :=
  rfl

theorem digitsValue_storedTwelve : digitsValue storedTwelve.toList 0 = some 12 := by
  decide

theorem decimalNumber_storedTwelve : (decimalNumber storedTwelve : JSNum α) = .num 12 := by
  unfold decimalNumber
  rw [digitsValue_storedTwelve]
  simp

theorem decimalNumber_notNumeric : (decimalNumber notNumeric : JSNum α) = .nan :=
  rfl

/-- C12, the code at the failing input. With the string `fast` stored under `ballSpeed`
and `botDifficulty`, `getSetting` returns `NaN`, not the fallback, and the clamp keeps it:
`BALL_SPEED` and `AI_SPEED` start as `NaN`, not as 5 and 4. When the value is missing,
`getSetting` does return the fallback and the speeds start as 5 and 4. -/
theorem C12_not_numeric_is_nan :
    (getSetting (storageWith notNumeric) decimalNumber ballSpeedKey (.num 5) : JSNum ℝ) = .nan ∧
    (getSetting (storageWith notNumeric) decimalNumber ballSpeedKey (.num 5) : JSNum ℝ) ≠
      .num 5 ∧
    (startupBallSpeed (storageWith notNumeric) decimalNumber : JSNum ℝ) = .nan ∧
    (startupAiSpeed (storageWith notNumeric) decimalNumber : JSNum ℝ) = .nan ∧
    (∀ (toNumber : String → JSNum ℝ) (key : String) (fallback : JSNum ℝ),
      getSetting emptyStorage toNumber key fallback = fallback) ∧
    (∀ toNumber : String → JSNum ℝ, startupBallSpeed emptyStorage toNumber = .num 5 ∧
      startupAiSpeed emptyStorage toNumber = .num 4) := by
  have e : (getSetting (storageWith notNumeric) decimalNumber ballSpeedKey (.num 5) : JSNum ℝ)
      = .nan := rfl
  refine ⟨e, ?_, rfl, rfl, fun _ _ _ => rfl, fun toNumber => ?_⟩
  · rw [e]
    exact fun h => JSNum.noConfusion h
  · simp only [startupBallSpeed, startupAiSpeed, getSetting, emptyStorage, clamp_num]
    constructor
    · congr 1; norm_num
    · congr 1; norm_num

/-- C13. Clamp on load: when the stored string of a key converts to a number `v`, the
startup value of `BALL_SPEED` (and likewise of `AI_SPEED`) is `max(1, min(10, v))`, which
lies in `[1, 10]`, and it is the speed `initialGame` starts with; when the key is absent
the startup values are the defaults 5 and 4. -/
theorem C13_clamp_on_load (localStorage : String → Option String)
    (toNumber : String → JSNum α) :
    (∀ (value : String) (v : α), localStorage ballSpeedKey = some value →
      toNumber value = .num v →
      startupBallSpeed localStorage toNumber = .num (max 1 (min 10 v)) ∧
      (1 : α) ≤ max 1 (min 10 v) ∧ max 1 (min 10 v) ≤ (10 : α) ∧
      ∀ (M : JSMath α) (c : Canvas) (w : α) (d : Draws α),
        (initialGame M c v w d).BALL_SPEED = max 1 (min 10 v)) ∧
    (∀ (value : String) (v : α), localStorage botDifficultyKey = some value →
      toNumber value = .num v →
      startupAiSpeed localStorage toNumber = .num (max 1 (min 10 v)) ∧
      (1 : α) ≤ max 1 (min 10 v) ∧ max 1 (min 10 v) ≤ (10 : α) ∧
      ∀ (M : JSMath α) (c : Canvas) (w : α) (d : Draws α),
        (initialGame M c w v d).AI_SPEED = max 1 (min 10 v)) ∧
    (localStorage ballSpeedKey = none → startupBallSpeed localStorage toNumber = .num 5) ∧
    (localStorage botDifficultyKey = none → startupAiSpeed localStorage toNumber = .num 4) := by
  have hc : ∀ v : α, (1 : α) ≤ max 1 (min 10 v) ∧ max 1 (min 10 v) ≤ (10 : α) :=
    fun v => clamp_mem 1 10 v (by norm_num)
  refine ⟨fun value v hs hn => ⟨?_, (hc v).1, (hc v).2, fun _ _ _ _ => rfl⟩,
    fun value v hs hn => ⟨?_, (hc v).1, (hc v).2, fun _ _ _ _ => rfl⟩, fun h => ?_, fun h => ?_⟩
  · simp only [startupBallSpeed, getSetting_stored _ _ _ _ _ hs, hn, clamp_num]
  · simp only [startupAiSpeed, getSetting_stored _ _ _ _ _ hs, hn, clamp_num]
  · simp only [startupBallSpeed, getSetting_missing _ _ _ _ h, clamp_num]
    congr 1; norm_num
  · simp only [startupAiSpeed, getSetting_missing _ _ _ _ h, clamp_num]
    congr 1; norm_num

/-- C13 at the string `12` stored under `ballSpeed`: the game starts with `BALL_SPEED = 10`. -/
theorem C13_clamp_on_load_witness :
    (startupBallSpeed (storageWith storedTwelve) decimalNumber : JSNum ℝ) = .num 10 := by
  have h := ((C13_clamp_on_load (storageWith storedTwelve)
    (decimalNumber : String → JSNum ℝ)).1 storedTwelve 12 rfl decimalNumber_storedTwelve).1
  rw [h]
  congr 1
  norm_num

/-! ### The direction of a serve -/

/-- The cosine and sine of the serve angle in terms of the angle `a` drawn before the two
flips: the second draw decides the sign of the sine, the third that of the cosine. -/
theorem serve_cos_sin (d : Draws ℝ) :
    Real.cos (getRandomBallAngle realMath d) =
      (if d.r3 < 0.5 then -1 else 1) *
        Real.cos (Real.pi / 9 + d.r1 * (Real.pi / 3.5 - Real.pi / 9)) ∧
    Real.sin (getRandomBallAngle realMath d) =
      (if d.r2 < 0.5 then -1 else 1) *
        Real.sin (Real.pi / 9 + d.r1 * (Real.pi / 3.5 - Real.pi / 9)) := by
  simp only [getRandomBallAngle, realMath]
  generalize Real.pi / 9 + d.r1 * (Real.pi / 3.5 - Real.pi / 9) = a
  by_cases h2 : d.r2 < 0.5 <;> by_cases h3 : d.r3 < 0.5 <;>
    simp only [h2, h3, if_true, if_false, Real.cos_pi_sub, Real.sin_pi_sub, Real.cos_neg,
      Real.sin_neg, neg_one_mul, one_mul, and_self]

/-- On `[π/9, π/3.5)` the cosine and sine are positive and the tangent lies between
`tan(π/9)` and `tan(π/3.5)`. -/
theorem base_trig (a : ℝ) (h1 : Real.pi / 9 ≤ a) (h2 : a < Real.pi / 3.5) :
    0 < Real.cos a ∧ 0 < Real.sin a ∧
    Real.tan (Real.pi / 9) ≤ Real.sin a / Real.cos a ∧
    Real.sin a / Real.cos a ≤ Real.tan (Real.pi / 3.5) := by
  have hpi := Real.pi_pos
  have hmax : Real.pi / 3.5 = Real.pi * (2 / 7) := by ring
  rw [hmax] at h2 ⊢
  have ha0 : 0 < a := lt_of_lt_of_le (by positivity) h1
  have ha2 : a < Real.pi / 2 := by linarith
  have hmono := Real.strictMonoOn_tan.monotoneOn
  refine ⟨Real.cos_pos_of_mem_Ioo ⟨by linarith, ha2⟩,
    Real.sin_pos_of_pos_of_lt_pi ha0 (by linarith), ?_, ?_⟩
  · rw [← Real.tan_eq_sin_div_cos]
    exact hmono ⟨by linarith, by linarith⟩ ⟨by linarith, ha2⟩ h1
  · rw [← Real.tan_eq_sin_div_cos]
    exact hmono ⟨by linarith, ha2⟩ ⟨by linarith, by linarith⟩ h2.le

/-- C11. Serve direction (over the reals): for draws with `r1` in `[0, 1)` and every speed
`s > 0`, the velocity set by `setBallVelocityFromAngle(getRandomBallAngle(), s)` has
`vx ≠ 0`, `vy ≠ 0` and `tan(π/9) ≤ |vy| / |vx| ≤ tan(π/3.5)`; the third draw decides the
sign of `vx` and the second that of `vy`, so each of the four sign combinations is produced
by some draws in `[0, 1)`. -/
theorem C11_serve_direction :
    (∀ (d : Draws ℝ) (s : ℝ) (b : Ball ℝ), 0 ≤ d.r1 → d.r1 < 1 → 0 < s →
      (setBallVelocityFromAngle realMath (getRandomBallAngle realMath d) s b).vx ≠ 0 ∧
      (setBallVelocityFromAngle realMath (getRandomBallAngle realMath d) s b).vy ≠ 0 ∧
      Real.tan (Real.pi / 9) ≤
        |(setBallVelocityFromAngle realMath (getRandomBallAngle realMath d) s b).vy| /
        |(setBallVelocityFromAngle realMath (getRandomBallAngle realMath d) s b).vx| ∧
      |(setBallVelocityFromAngle realMath (getRandomBallAngle realMath d) s b).vy| /
        |(setBallVelocityFromAngle realMath (getRandomBallAngle realMath d) s b).vx| ≤
        Real.tan (Real.pi / 3.5) ∧
      ((setBallVelocityFromAngle realMath (getRandomBallAngle realMath d) s b).vx < 0 ↔
        d.r3 < 0.5) ∧
      ((setBallVelocityFromAngle realMath (getRandomBallAngle realMath d) s b).vy < 0 ↔
        d.r2 < 0.5)) ∧
    (∀ (s : ℝ) (b : Ball ℝ), 0 < s →
      (0 < (setBallVelocityFromAngle realMath
          (getRandomBallAngle realMath ⟨1 / 2, 1 / 2, 1 / 2⟩) s b).vx ∧
        0 < (setBallVelocityFromAngle realMath
          (getRandomBallAngle realMath ⟨1 / 2, 1 / 2, 1 / 2⟩) s b).vy) ∧
      (0 < (setBallVelocityFromAngle realMath
          (getRandomBallAngle realMath ⟨1 / 2, 0, 1 / 2⟩) s b).vx ∧
        (setBallVelocityFromAngle realMath
          (getRandomBallAngle realMath ⟨1 / 2, 0, 1 / 2⟩) s b).vy < 0) ∧
      ((setBallVelocityFromAngle realMath
          (getRandomBallAngle realMath ⟨1 / 2, 1 / 2, 0⟩) s b).vx < 0 ∧
        0 < (setBallVelocityFromAngle realMath
          (getRandomBallAngle realMath ⟨1 / 2, 1 / 2, 0⟩) s b).vy) ∧
      ((setBallVelocityFromAngle realMath
          (getRandomBallAngle realMath ⟨1 / 2, 0, 0⟩) s b).vx < 0 ∧
        (setBallVelocityFromAngle realMath
          (getRandomBallAngle realMath ⟨1 / 2, 0, 0⟩) s b).vy < 0)) := by
  have key : ∀ (d : Draws ℝ) (s : ℝ) (b : Ball ℝ), 0 ≤ d.r1 → d.r1 < 1 → 0 < s →
      (setBallVelocityFromAngle realMath (getRandomBallAngle realMath d) s b).vx ≠ 0 ∧
      (setBallVelocityFromAngle realMath (getRandomBallAngle realMath d) s b).vy ≠ 0 ∧
      Real.tan (Real.pi / 9) ≤
        |(setBallVelocityFromAngle realMath (getRandomBallAngle realMath d) s b).vy| /
        |(setBallVelocityFromAngle realMath (getRandomBallAngle realMath d) s b).vx| ∧
      |(setBallVelocityFromAngle realMath (getRandomBallAngle realMath d) s b).vy| /
        |(setBallVelocityFromAngle realMath (getRandomBallAngle realMath d) s b).vx| ≤
        Real.tan (Real.pi / 3.5) ∧
      ((setBallVelocityFromAngle realMath (getRandomBallAngle realMath d) s b).vx < 0 ↔
        d.r3 < 0.5) ∧
      ((setBallVelocityFromAngle realMath (getRandomBallAngle realMath d) s b).vy < 0 ↔
        d.r2 < 0.5) := by
    intro d s b h0 h1 hs
    obtain ⟨hc, hsn⟩ := serve_cos_sin d
    obtain ⟨ha, hb⟩ := baseAngle_mem d.r1 h0 h1
    obtain ⟨cpos, spos, tlo, thi⟩ := base_trig _ ha hb
    have evx : (setBallVelocityFromAngle realMath (getRandomBallAngle realMath d) s b).vx =
        s * ((if d.r3 < 0.5 then -1 else 1) *
          Real.cos (Real.pi / 9 + d.r1 * (Real.pi / 3.5 - Real.pi / 9))) := by
      rw [← hc]; rfl
    have evy : (setBallVelocityFromAngle realMath (getRandomBallAngle realMath d) s b).vy =
        s * ((if d.r2 < 0.5 then -1 else 1) *
          Real.sin (Real.pi / 9 + d.r1 * (Real.pi / 3.5 - Real.pi / 9))) := by
      rw [← hsn]; rfl
    rw [evx, evy]
    generalize Real.pi / 9 + d.r1 * (Real.pi / 3.5 - Real.pi / 9) = a at cpos spos tlo thi
    have hsc : 0 < s * Real.cos a := mul_pos hs cpos
    have hss : 0 < s * Real.sin a := mul_pos hs spos
    have hq : |s * Real.sin a| / |s * Real.cos a| = Real.sin a / Real.cos a := by
      rw [abs_of_pos hss, abs_of_pos hsc, mul_div_mul_left _ _ hs.ne']
    by_cases h2 : d.r2 < 0.5 <;> by_cases h3 : d.r3 < 0.5 <;>
      simp only [h2, h3, if_true, if_false, neg_one_mul, one_mul, mul_neg, abs_neg, hq,
        iff_true, iff_false, not_lt, neg_neg_iff_pos, ne_eq, neg_eq_zero] <;>
      exact ⟨by positivity, by positivity, tlo, thi, by first | exact hsc | exact hsc.le,
        by first | exact hss | exact hss.le⟩
  refine ⟨key, fun s b hs => ?_⟩
  have k1 := key ⟨1 / 2, 1 / 2, 1 / 2⟩ s b (by norm_num) (by norm_num) hs
  have k2 := key ⟨1 / 2, 0, 1 / 2⟩ s b (by norm_num) (by norm_num) hs
  have k3 := key ⟨1 / 2, 1 / 2, 0⟩ s b (by norm_num) (by norm_num) hs
  have k4 := key ⟨1 / 2, 0, 0⟩ s b (by norm_num) (by norm_num) hs
  have n1 : ¬ ((1 / 2 : ℝ) < 0.5) := by norm_num
  have n2 : ((0 : ℝ) < 0.5) := by norm_num
  refine ⟨⟨?_, ?_⟩, ⟨?_, ?_⟩, ⟨?_, ?_⟩, ⟨?_, ?_⟩⟩
  · exact lt_of_le_of_ne (not_lt.mp (fun h => n1 (k1.2.2.2.2.1.1 h))) (Ne.symm k1.1)
  · exact lt_of_le_of_ne (not_lt.mp (fun h => n1 (k1.2.2.2.2.2.1 h))) (Ne.symm k1.2.1)
  · exact lt_of_le_of_ne (not_lt.mp (fun h => n1 (k2.2.2.2.2.1.1 h))) (Ne.symm k2.1)
  · exact k2.2.2.2.2.2.2 n2
  · exact k3.2.2.2.2.1.2 n2
  · exact lt_of_le_of_ne (not_lt.mp (fun h => n1 (k3.2.2.2.2.2.1 h))) (Ne.symm k3.2.1)
  · exact k4.2.2.2.2.1.2 n2
  · exact k4.2.2.2.2.2.2 n2

/-- C11 at the draws `(1/2, 1/2, 1/2)` and speed 5. -/
theorem C11_serve_direction_witness :
    (setBallVelocityFromAngle realMath (getRandomBallAngle realMath ⟨1 / 2, 1 / 2, 1 / 2⟩) 5
      ⟨392, 192, 0, 0⟩).vx ≠ 0 :=
  (C11_serve_direction.1 ⟨1 / 2, 1 / 2, 1 / 2⟩ 5 ⟨392, 192, 0, 0⟩
    (by norm_num) (by norm_num) (by norm_num)).1

/-! ### The two sliders -/

/-- Over the reals, the cosine and sine of `Math.atan2(vy, vx)` for a non-zero vector. -/
theorem cos_sin_atan2 (vx vy : ℝ) (h : vx ≠ 0 ∨ vy ≠ 0) :
    0 < Real.sqrt (vx ^ 2 + vy ^ 2) ∧
    realMath.cos (realMath.atan2 vy vx) = vx / Real.sqrt (vx ^ 2 + vy ^ 2) ∧
    realMath.sin (realMath.atan2 vy vx) = vy / Real.sqrt (vx ^ 2 + vy ^ 2) := by
  have hz : (⟨vx, vy⟩ : ℂ) ≠ 0 := by
    intro e
    have e1 := congrArg Complex.re e
    have e2 := congrArg Complex.im e
    simp only [Complex.zero_re, Complex.zero_im] at e1 e2
    rcases h with h | h
    · exact h e1
    · exact h e2
  have habs : Complex.abs ⟨vx, vy⟩ = Real.sqrt (vx ^ 2 + vy ^ 2) := by
    rw [Complex.abs_apply, Complex.normSq_mk, sq, sq]
  have hpos : 0 < vx ^ 2 + vy ^ 2 := by
    rcases h with h | h
    · have := pow_pos (abs_pos.mpr h) 2
      rw [sq_abs] at this
      nlinarith [sq_nonneg vy]
    · have := pow_pos (abs_pos.mpr h) 2
      rw [sq_abs] at this
      nlinarith [sq_nonneg vx]
  refine ⟨Real.sqrt_pos.mpr hpos, ?_, ?_⟩
  · show Real.cos (Complex.arg ⟨vx, vy⟩) = _
    rw [Complex.cos_arg hz, habs]
  · show Real.sin (Complex.arg ⟨vx, vy⟩) = _
    rw [Complex.sin_arg, habs]

/-- C14. Live speed change preserves direction (over the reals): for a ball velocity
`(vx, vy) ≠ (0, 0)` and a new speed `s > 0` read from the ball-speed slider, the handler
sets `BALL_SPEED = s` and the velocity to `(s/|v|) * (vx, vy)`, the same direction with
magnitude exactly `s`; the ball position, the paddles, the scores, the pause flag and
`AI_SPEED` are unchanged. The bot-difficulty handler changes only `AI_SPEED`. -/
theorem C14_live_speed_change (s : ℤ) (g : Game ℝ) (hv : g.ball.vx ≠ 0 ∨ g.ball.vy ≠ 0)
    (hs : 0 < s) :
    ((ballSpeedInput realMath s g).ball.vx =
        (s : ℝ) / Real.sqrt (g.ball.vx ^ 2 + g.ball.vy ^ 2) * g.ball.vx ∧
      (ballSpeedInput realMath s g).ball.vy =
        (s : ℝ) / Real.sqrt (g.ball.vx ^ 2 + g.ball.vy ^ 2) * g.ball.vy ∧
      0 < (s : ℝ) / Real.sqrt (g.ball.vx ^ 2 + g.ball.vy ^ 2) ∧
      Real.sqrt (speedSq (ballSpeedInput realMath s g).ball) = (s : ℝ)) ∧
    ((ballSpeedInput realMath s g).BALL_SPEED = (s : ℝ) ∧
      (ballSpeedInput realMath s g).ball.x = g.ball.x ∧
      (ballSpeedInput realMath s g).ball.y = g.ball.y ∧
      (ballSpeedInput realMath s g).leftPaddle = g.leftPaddle ∧
      (ballSpeedInput realMath s g).rightPaddle = g.rightPaddle ∧
      (ballSpeedInput realMath s g).leftScore = g.leftScore ∧
      (ballSpeedInput realMath s g).rightScore = g.rightScore ∧
      (ballSpeedInput realMath s g).paused = g.paused ∧
      (ballSpeedInput realMath s g).AI_SPEED = g.AI_SPEED) ∧
    (∀ w : ℤ, botDifficultyInput w g = { g with AI_SPEED := (w : ℝ) }) := by
  obtain ⟨hpos, hc, hsn⟩ := cos_sin_atan2 g.ball.vx g.ball.vy hv
  have hs' : (0 : ℝ) < (s : ℝ) := by exact_mod_cast hs
  have evx : (ballSpeedInput realMath s g).ball.vx =
      (s : ℝ) * realMath.cos (realMath.atan2 g.ball.vy g.ball.vx) := rfl
  have evy : (ballSpeedInput realMath s g).ball.vy =
      (s : ℝ) * realMath.sin (realMath.atan2 g.ball.vy g.ball.vx) := rfl
  refine ⟨⟨?_, ?_, div_pos hs' hpos, ?_⟩, ⟨rfl, rfl, rfl, rfl, rfl, rfl, rfl, rfl, rfl⟩,
    fun _ => rfl⟩
  · rw [evx, hc]; ring
  · rw [evy, hsn]; ring
  · have h := setBallVelocityFromAngle_speedSq (realMath.atan2 g.ball.vy g.ball.vx) (s : ℝ)
      g.ball
    have e : speedSq (ballSpeedInput realMath s g).ball = (s : ℝ) ^ 2 := h
    rw [e, Real.sqrt_sq hs'.le]

/-- C14 at a ball of velocity `(-3, 4)` and the slider moved to 10: the velocity becomes
`(-6, 8)`. -/
theorem C14_live_speed_change_witness :
    (ballSpeedInput realMath 10 (sampleGame sampleCanvas 150 50 ⟨400, 118, -3, 4⟩)).ball.vx =
      -6 ∧
    (ballSpeedInput realMath 10 (sampleGame sampleCanvas 150 50 ⟨400, 118, -3, 4⟩)).ball.vy =
      8 := by
  have h := (C14_live_speed_change 10 (sampleGame sampleCanvas 150 50 ⟨400, 118, -3, 4⟩)
    (Or.inl (by norm_num [sampleGame])) (by norm_num)).1
  have e : Real.sqrt ((-3 : ℝ) ^ 2 + 4 ^ 2) = 5 := by
    rw [show ((-3 : ℝ) ^ 2 + 4 ^ 2) = 5 ^ 2 by norm_num]
    exact Real.sqrt_sq (by norm_num)
  constructor
  · rw [h.1]
    simp only [sampleGame, e]
    norm_num
  · rw [h.2.1]
    simp only [sampleGame, e]
    norm_num

/-! ### The walls -/

theorem HEIGHT_nonneg (c : Canvas) : (0 : α) ≤ HEIGHT c :=
  Nat.cast_nonneg _

/-- The ball after the wall step, by the three cases of the two tests, on a playfield
higher than the ball. -/
theorem wallStep_cases (c : Canvas) (g : Game α) (hH : (BALL_SIZE : α) < HEIGHT c) :
    (g.ball.y ≤ 0 →
      (wallStep c g).ball = { g.ball with y := 0, vy := -g.ball.vy }) ∧
    (HEIGHT c ≤ g.ball.y + BALL_SIZE →
      (wallStep c g).ball = { g.ball with y := HEIGHT c - BALL_SIZE, vy := -g.ball.vy }) ∧
    (¬ g.ball.y ≤ 0 → ¬ HEIGHT c ≤ g.ball.y + BALL_SIZE → (wallStep c g).ball = g.ball) := by
  have hB : (0 : α) < BALL_SIZE := by norm_num [BALL_SIZE]
  refine ⟨fun h => ?_, fun h => ?_, fun h1 h2 => ?_⟩
  · have h2 : ¬ HEIGHT c ≤ (BALL_SIZE : α) := not_le.mpr hH
    simp [wallStep, h, h2]
  · have h1 : ¬ g.ball.y ≤ 0 := by
      intro h0
      linarith
    simp [wallStep, h, h1]
  · simp [wallStep, h1, h2]

/-- C15. Wall resolution no-op: for a ball whose `y` is inside the bounds, neither at or
above the top edge (`y ≤ 0`) nor at or below the bottom edge
(`y + BALL_SIZE ≥ HEIGHT`), the wall-collision step of `update()` changes nothing: neither
the ball's position nor its velocity. -/
theorem C15_wall_noop (c : Canvas) (g : Game α) (h1 : ¬ g.ball.y ≤ 0)
    (h2 : ¬ g.ball.y + BALL_SIZE ≥ HEIGHT c) : wallStep c g = g := by
  have h2' : ¬ HEIGHT c ≤ g.ball.y + BALL_SIZE := h2
  simp [wallStep, h1, h2']

/-- C15 at a ball that the integration moved to `y = 122` on a playfield of height 400. -/
theorem C15_wall_noop_witness :
    wallStep sampleCanvas (integrate (sampleGame sampleCanvas (150 : ℝ) 50 ⟨400, 118, 3, 4⟩)) =
      integrate (sampleGame sampleCanvas (150 : ℝ) 50 ⟨400, 118, 3, 4⟩) :=
  C15_wall_noop sampleCanvas _ (by norm_num [integrate, sampleGame])
    (by norm_num [integrate, sampleGame, sampleCanvas, HEIGHT, BALL_SIZE])

/-- C16. Wall bounce: on a playfield with `HEIGHT > BALL_SIZE`, the wall-collision step of
`update()` sets `y = 0` and negates `vy` when the integrated `y ≤ 0`, sets
`y = HEIGHT - BALL_SIZE` and negates `vy` when `y + BALL_SIZE ≥ HEIGHT`, never takes both
branches (the two conditions exclude each other and the first branch leaves a ball that
fails the second test), and in all cases leaves `x`, `vx` and `vx² + vy²` unchanged. -/
theorem C16_wall_bounce (c : Canvas) (g : Game α) (hH : (BALL_SIZE : α) < HEIGHT c) :
    (g.ball.y ≤ 0 →
      (wallStep c g).ball.y = 0 ∧ (wallStep c g).ball.vy = -g.ball.vy) ∧
    (g.ball.y + BALL_SIZE ≥ HEIGHT c →
      (wallStep c g).ball.y = HEIGHT c - BALL_SIZE ∧ (wallStep c g).ball.vy = -g.ball.vy) ∧
    ¬ (g.ball.y ≤ 0 ∧ g.ball.y + BALL_SIZE ≥ HEIGHT c) ∧
    ¬ ((0 : α) + BALL_SIZE ≥ HEIGHT c) ∧
    (¬ g.ball.y ≤ 0 → ¬ g.ball.y + BALL_SIZE ≥ HEIGHT c → (wallStep c g).ball = g.ball) ∧
    (wallStep c g).ball.x = g.ball.x ∧
    (wallStep c g).ball.vx = g.ball.vx ∧
    speedSq (wallStep c g).ball = speedSq g.ball := by
  obtain ⟨k1, k2, k3⟩ := wallStep_cases c g hH
  have hB : (0 : α) < BALL_SIZE := by norm_num [BALL_SIZE]
  have hframe : (wallStep c g).ball.x = g.ball.x ∧ (wallStep c g).ball.vx = g.ball.vx ∧
      speedSq (wallStep c g).ball = speedSq g.ball := by
    by_cases h1 : g.ball.y ≤ 0
    · rw [k1 h1]; exact ⟨rfl, rfl, by simp [speedSq]⟩
    · by_cases h2 : HEIGHT c ≤ g.ball.y + BALL_SIZE
      · rw [k2 h2]; exact ⟨rfl, rfl, by simp [speedSq]⟩
      · rw [k3 h1 h2]; exact ⟨rfl, rfl, rfl⟩
  refine ⟨fun h => ?_, fun h => ?_, fun h => ?_, ?_, fun h1 h2 => k3 h1 h2, hframe⟩
  · rw [k1 h]; exact ⟨rfl, rfl⟩
  · rw [k2 h]; exact ⟨rfl, rfl⟩
  · have := h.1
    have := h.2
    linarith
  · rw [zero_add]; exact not_le.mpr hH

/-- C16 at a ball that the integration moved above the top edge: it is put at `y = 0` and
sent down. -/
theorem C16_wall_bounce_witness :
    (wallStep sampleCanvas
      (integrate (sampleGame sampleCanvas (150 : ℝ) 50 ⟨400, 2, 3, -4⟩))).ball.y = 0 ∧
    (wallStep sampleCanvas
      (integrate (sampleGame sampleCanvas (150 : ℝ) 50 ⟨400, 2, 3, -4⟩))).ball.vy = 4 := by
  have h := (C16_wall_bounce sampleCanvas
    (integrate (sampleGame sampleCanvas (150 : ℝ) 50 ⟨400, 2, 3, -4⟩))
    (by norm_num [BALL_SIZE, HEIGHT, sampleCanvas])).1
    (by norm_num [integrate, sampleGame])
  refine ⟨h.1, ?_⟩
  rw [h.2]
  norm_num [integrate, sampleGame]

/-- After integration and wall resolution the ball is vertically inside the playfield. -/
theorem afterWalls_ball_y_mem (c : Canvas) (g : Game α) (hH : (BALL_SIZE : α) ≤ HEIGHT c) :
    0 ≤ (afterWalls c g).ball.y ∧ (afterWalls c g).ball.y ≤ HEIGHT c - BALL_SIZE := by
  simp only [afterWalls, wallStep, integrate]
  split_ifs with h1 h2 h3
  · exact ⟨sub_nonneg.mpr hH, le_refl _⟩
  · exact ⟨le_refl _, sub_nonneg.mpr hH⟩
  · exact ⟨sub_nonneg.mpr hH, le_refl _⟩
  · have h1' : 0 < g.ball.y + g.ball.vy := not_le.mp h1
    have h3' : g.ball.y + g.ball.vy + BALL_SIZE < HEIGHT c := not_le.mp h3
    exact ⟨h1'.le, by linarith⟩

/-- C17. The ball never rests outside the playfield: for `WIDTH ≥ BALL_SIZE` and
`HEIGHT ≥ BALL_SIZE` and every prior state, after an unpaused `update()` the ball has
`0 ≤ y ≤ HEIGHT - BALL_SIZE` and `0 ≤ x ≤ WIDTH`. -/
theorem C17_ball_inside (M : JSMath α) (c : Canvas) (d : Draws α) (g : Game α)
    (hW : (BALL_SIZE : α) ≤ WIDTH c) (hH : (BALL_SIZE : α) ≤ HEIGHT c)
    (hp : g.paused = false) :
    0 ≤ (update M c d g).ball.y ∧ (update M c d g).ball.y ≤ HEIGHT c - BALL_SIZE ∧
    0 ≤ (update M c d g).ball.x ∧ (update M c d g).ball.x ≤ WIDTH c := by
  have hB : (0 : α) < BALL_SIZE := by norm_num [BALL_SIZE]
  have hy := afterWalls_ball_y_mem c g hH
  have ey : (afterPaddles M c g).ball.y = (afterWalls c g).ball.y := by
    unfold afterPaddles
    rw [rightPaddleStep_ball_y, leftPaddleStep_ball_y]
  have hcentre : ∀ s : Game α,
      0 ≤ (resetBall M c d s).ball.y ∧ (resetBall M c d s).ball.y ≤ HEIGHT c - BALL_SIZE ∧
      0 ≤ (resetBall M c d s).ball.x ∧ (resetBall M c d s).ball.x ≤ WIDTH c := by
    intro s
    simp only [resetBall, setBallVelocityFromAngle]
    refine ⟨by linarith, by linarith, by linarith, by linarith⟩
  have h := update_scores M c d g hp
  by_cases h0 : (afterPaddles M c g).ball.x < 0
  · rw [(h.1 h0).2.2]; exact hcentre _
  · by_cases h1 : WIDTH c < (afterPaddles M c g).ball.x
    · rw [(h.2.1 h1).2.2]; exact hcentre _
    · rw [(h.2.2 h0 h1).2.2, ey]
      exact ⟨hy.1, hy.2, not_lt.mp h0, not_lt.mp h1⟩

/-- C17 at a ball leaving through the left edge: after the frame it is inside again. -/
theorem C17_ball_inside_witness :
    0 ≤ (update realMath sampleCanvas ⟨0, 0, 0⟩
      (sampleGame sampleCanvas 150 50 ⟨0, 20, -3, 4⟩)).ball.x ∧
    (update realMath sampleCanvas ⟨0, 0, 0⟩
      (sampleGame sampleCanvas 150 50 ⟨0, 20, -3, 4⟩)).ball.x ≤ WIDTH sampleCanvas :=
  (C17_ball_inside realMath sampleCanvas ⟨0, 0, 0⟩
    (sampleGame sampleCanvas 150 50 ⟨0, 20, -3, 4⟩)
    (by norm_num [BALL_SIZE, WIDTH, sampleCanvas])
    (by norm_num [BALL_SIZE, HEIGHT, sampleCanvas]) rfl).2.2

/-! ### The direction guards -/

/-- On a paddle hit (paddle height `PADDLE_HEIGHT`) the angle `n π/3` has a positive
cosine: `|n| ≤ 1.16` keeps it strictly inside `(-π/2, π/2)`. -/
theorem bounce_cos_pos (p : Paddle ℝ) (y : ℝ) (hh : p.height = PADDLE_HEIGHT)
    (h1 : p.y ≤ y + BALL_SIZE) (h2 : y ≤ p.y + p.height) :
    0 < Real.cos (normalizedIntersectY p y * (Real.pi / 3)) := by
  obtain ⟨hlo, hhi⟩ := normalizedIntersectY_bounds p y hh h1 h2
  have hpi := Real.pi_pos
  apply Real.cos_pos_of_mem_Ioo
  constructor
  · nlinarith
  · nlinarith

/-- With `BALL_SPEED ≥ 0` the guard of the left-paddle branch does not fire. -/
theorem leftPaddleStep_eq_noGuard (g : Game ℝ) (hs : 0 ≤ g.BALL_SPEED)
    (hh : g.leftPaddle.height = PADDLE_HEIGHT) :
    leftPaddleStep realMath g = leftPaddleStepNoGuard realMath g := by
  unfold leftPaddleStep leftPaddleStepNoGuard
  split_ifs with hc
  · have h' := (leftCollides_eq_true g).1 hc
    have hcos := bounce_cos_pos g.leftPaddle g.ball.y hh h'.2.1 h'.2.2
    have hvx : ¬ g.BALL_SPEED *
        Real.cos (normalizedIntersectY g.leftPaddle g.ball.y * (Real.pi / 3)) < 0 :=
      not_lt.mpr (mul_nonneg hs hcos.le)
    simp only [leftBounce, leftBounceNoGuard, setBallVelocityFromAngle, realMath, hvx, if_false]
  · rfl

/-- With `BALL_SPEED ≥ 0` the guard of the right-paddle branch does not fire. -/
theorem rightPaddleStep_eq_noGuard (g : Game ℝ) (hs : 0 ≤ g.BALL_SPEED)
    (hh : g.rightPaddle.height = PADDLE_HEIGHT) :
    rightPaddleStep realMath g = rightPaddleStepNoGuard realMath g := by
  unfold rightPaddleStep rightPaddleStepNoGuard
  split_ifs with hc
  · have h' := (rightCollides_eq_true g).1 hc
    have hcos := bounce_cos_pos g.rightPaddle g.ball.y hh h'.2.1 h'.2.2
    have hvx : ¬ g.BALL_SPEED * Real.cos
        (Real.pi - normalizedIntersectY g.rightPaddle g.ball.y * (Real.pi / 3)) > 0 := by
      rw [Real.cos_pi_sub]
      exact not_lt.mpr (by nlinarith)
    simp only [rightBounce, rightBounceNoGuard, setBallVelocityFromAngle, realMath, hvx,
      if_false]
  · rfl

/-- C19. The direction-forcing guards are dead code (over the reals, paddle heights
`PADDLE_HEIGHT`): for `BALL_SPEED > 0`, whenever a paddle-collision branch of `update()`
is taken the velocity set by `setBallVelocityFromAngle` already has `vx > 0` (left paddle)
or `vx < 0` (right paddle), so the guards `if (ball.vx < 0)` and `if (ball.vx > 0)` do not
fire and `update()` equals the variant with both guards removed. -/
theorem C19_guards_dead (c : Canvas) (d : Draws ℝ) (g : Game ℝ) (hs : 0 < g.BALL_SPEED)
    (hl : g.leftPaddle.height = PADDLE_HEIGHT) (hr : g.rightPaddle.height = PADDLE_HEIGHT) :
    (leftCollides (afterWalls c g) = true →
      0 < (setBallVelocityFromAngle realMath
        (normalizedIntersectY (afterWalls c g).leftPaddle (afterWalls c g).ball.y *
          (realMath.PI / 3))
        g.BALL_SPEED (afterWalls c g).ball).vx) ∧
    (rightCollides (leftPaddleStep realMath (afterWalls c g)) = true →
      (setBallVelocityFromAngle realMath
        (realMath.PI -
          normalizedIntersectY (leftPaddleStep realMath (afterWalls c g)).rightPaddle
            (leftPaddleStep realMath (afterWalls c g)).ball.y * (realMath.PI / 3))
        g.BALL_SPEED (leftPaddleStep realMath (afterWalls c g)).ball).vx < 0) ∧
    update realMath c d g = updateNoGuards realMath c d g := by
  have hw := afterWalls_same c g
  have hs2 := hw.trans (leftPaddleStep_same realMath (afterWalls c g))
  refine ⟨fun hc => ?_, fun hc => ?_, ?_⟩
  · have h' := (leftCollides_eq_true _).1 hc
    have hcos := bounce_cos_pos _ _ (by rw [hw.2.2.2.2.2.1, hl]) h'.2.1 h'.2.2
    exact mul_pos hs hcos
  · have h' := (rightCollides_eq_true _).1 hc
    have hcos := bounce_cos_pos _ _ (by rw [hs2.2.2.2.2.2.2, hr]) h'.2.1 h'.2.2
    have hpos := mul_pos hs hcos
    have key : g.BALL_SPEED * Real.cos (Real.pi -
        normalizedIntersectY (leftPaddleStep realMath (afterWalls c g)).rightPaddle
          (leftPaddleStep realMath (afterWalls c g)).ball.y * (Real.pi / 3)) < 0 := by
      rw [Real.cos_pi_sub, mul_neg]
      linarith
    exact key
  · have e1 := leftPaddleStep_eq_noGuard (afterWalls c g) (by rw [hw.2.2.2.1]; exact hs.le)
      (by rw [hw.2.2.2.2.2.1, hl])
    have e2 := rightPaddleStep_eq_noGuard (leftPaddleStep realMath (afterWalls c g))
      (by rw [hs2.2.2.2.1]; exact hs.le) (by rw [hs2.2.2.2.2.2.2, hr])
    unfold update updateNoGuards afterScore afterPaddles
    rw [e2, e1]

/-- C19 at a ball striking the left paddle: both versions of `update()` agree. -/
theorem C19_guards_dead_witness :
    update realMath sampleCanvas ⟨0, 0, 0⟩
      (sampleGame sampleCanvas 100 50 ⟨25, 138, -3, 4⟩) =
    updateNoGuards realMath sampleCanvas ⟨0, 0, 0⟩
      (sampleGame sampleCanvas 100 50 ⟨25, 138, -3, 4⟩) :=
  (C19_guards_dead sampleCanvas ⟨0, 0, 0⟩ (sampleGame sampleCanvas 100 50 ⟨25, 138, -3, 4⟩)
    (by norm_num [sampleGame]) rfl rfl).2.2

/-! ### A ball behind the left paddle -/

/-- C18. The left-paddle collision test has no lower bound on `ball.x` (over the reals,
paddle geometry of lines 38-49): for `WIDTH > 60` and every state in which, after
integration and wall resolution, the left-paddle test holds, that is the ball overlaps the
paddle's span vertically and `ball.x ≤ leftPaddle.x + leftPaddle.width`, however far behind
the paddle or below `x = 0` the ball is, an unpaused `update()` moves the ball to
`x = leftPaddle.x + leftPaddle.width`, gives it a velocity with `vx ≥ 0`, and `vx > 0` when
`BALL_SPEED > 0`, and changes neither score. -/
theorem C18_caught_from_behind (c : Canvas) (d : Draws ℝ) (g : Game ℝ)
    (hp : g.paused = false) (hW : (60 : ℝ) < WIDTH c)
    (hlx : g.leftPaddle.x = 10) (hlw : g.leftPaddle.width = PADDLE_WIDTH)
    (hlh : g.leftPaddle.height = PADDLE_HEIGHT)
    (hrx : g.rightPaddle.x = WIDTH c - PADDLE_WIDTH - 10)
    (hc : leftCollides (afterWalls c g) = true) :
    (update realMath c d g).ball.x = g.leftPaddle.x + g.leftPaddle.width ∧
    0 ≤ (update realMath c d g).ball.vx ∧
    (0 < g.BALL_SPEED → 0 < (update realMath c d g).ball.vx) ∧
    (update realMath c d g).leftScore = g.leftScore ∧
    (update realMath c d g).rightScore = g.rightScore := by
  have hw := afterWalls_same c g
  have hs2 := hw.trans (leftPaddleStep_same realMath (afterWalls c g))
  have hx2 : (leftPaddleStep realMath (afterWalls c g)).ball.x = 22 := by
    rw [leftPaddleStep_ball_x, if_pos hc, hw.2.2.2.2.2.1, hlx, hlw]
    norm_num [PADDLE_WIDTH]
  have hr : rightCollides (leftPaddleStep realMath (afterWalls c g)) = false := by
    rw [Bool.eq_false_iff, Ne, rightCollides_eq_true, hx2, hs2.2.2.2.2.2.2, hrx]
    rintro ⟨h, _⟩
    norm_num [PADDLE_WIDTH, BALL_SIZE] at h
    linarith
  have e3 : afterPaddles realMath c g = leftPaddleStep realMath (afterWalls c g) := by
    unfold afterPaddles rightPaddleStep
    rw [hr]
    rfl
  have h := (update_scores realMath c d g hp).2.2
    (by rw [e3, hx2]; norm_num) (by rw [e3, hx2]; exact not_lt.mpr (by linarith))
  have hb : (update realMath c d g).ball = (leftBounce realMath (afterWalls c g)).ball := by
    rw [h.2.2, e3]
    unfold leftPaddleStep
    rw [if_pos hc]
  have hvx : 0 ≤ (leftBounce realMath (afterWalls c g)).ball.vx := by
    simp only [leftBounce, setBallVelocityFromAngle]
    split_ifs with hv
    · exact abs_nonneg _
    · exact not_lt.mp hv
  refine ⟨?_, by rw [hb]; exact hvx, fun hs => ?_, h.2.1, h.1⟩
  · rw [h.2.2, e3, hx2, hlx, hlw]
    norm_num [PADDLE_WIDTH]
  · have h' := (leftCollides_eq_true _).1 hc
    have hcos := bounce_cos_pos _ _ (by rw [hw.2.2.2.2.2.1, hlh]) h'.2.1 h'.2.2
    have hpos := mul_pos (by rw [hw.2.2.2.1]; exact hs : 0 < (afterWalls c g).BALL_SPEED) hcos
    rw [hb]
    simp only [leftBounce, setBallVelocityFromAngle, realMath]
    split_ifs with hv
    · exact abs_pos.mpr hpos.ne'
    · exact hpos

/-- C18 at a ball already at `x = -40`, far behind the left paddle, level with it: the
frame puts it at `x = 22`, and nobody scores. -/
theorem C18_caught_from_behind_witness :
    (update realMath sampleCanvas ⟨0, 0, 0⟩
      (sampleGame sampleCanvas 150 50 ⟨-40, 176, -3, 4⟩)).ball.x = 22 ∧
    (update realMath sampleCanvas ⟨0, 0, 0⟩
      (sampleGame sampleCanvas 150 50 ⟨-40, 176, -3, 4⟩)).rightScore = 0 := by
  have h := C18_caught_from_behind sampleCanvas ⟨0, 0, 0⟩
    (sampleGame sampleCanvas 150 50 ⟨-40, 176, -3, 4⟩) rfl
    (by norm_num [WIDTH, sampleCanvas]) rfl rfl rfl rfl
    (by norm_num [leftCollides, afterWalls, wallStep, integrate, sampleGame, sampleCanvas,
      BALL_SIZE, HEIGHT, PADDLE_WIDTH, PADDLE_HEIGHT])
  refine ⟨?_, h.2.2.2.2⟩
  rw [h.1]
  norm_num [sampleGame, PADDLE_WIDTH]

end Claims

end Pong
